import Mathlib

/-
  Verification of the VOX session-state core (VoxPage, COSPage) of the
  VXDL-VOX-APP repository, via a shallow embedding of the state-management
  logic into Lean.  React useState fields become fields of an explicit
  `PageState` record; each async handler becomes a pure function from the
  service-call outcomes (an `Env` record) and the current state to the next
  state together with a trace of checkpoint / GenerationService-call events.
-/

namespace VXDL

/-- Maximum number of records the history ledger may hold
(`MAX_HISTORY_ITEMS` in src/components/VoxPage.tsx). -/
def MAX_HISTORY_ITEMS : Nat := 10

/-- Maximum number of retained undo snapshots
(`MAX_UNDO_STACK_SIZE` in src/components/VoxPage.tsx). -/
def MAX_UNDO_STACK_SIZE : Nat := 20

/-- JavaScript `arr.slice(-n)`: the last `n` elements (all of them when
`n` exceeds the length). -/
def takeRight (l : List α) (n : Nat) : List α := l.drop (l.length - n)

/-- JavaScript `arr.slice(0, stop)`: a negative `stop` counts from the end
of the array, a positive one is clamped to the length. -/
def jsSliceTo (l : List α) (stop : Int) : List α :=
  let stopIdx : Nat := if stop < 0 then ((l.length : Int) + stop).toNat else min stop.toNat l.length
  l.take stopIdx

/-- JavaScript `String.prototype.indexOf` for a single character: the index
of the first occurrence, or -1. -/
def jsIndexOf (s : String) (c : Char) : Int :=
  match s.toList.findIdx? (fun a => a = c) with
  | some i => (i : Int)
  | none => -1

/-- JavaScript `String.prototype.substring`: both arguments are clamped to
[0, length] and swapped when out of order. -/
def jsSubstring (s : String) (a b : Int) : String :=
  let len : Int := (s.length : Int)
  let x : Nat := (max 0 (min a len)).toNat
  let y : Nat := (max 0 (min b len)).toNat
  let lo := min x y
  let hi := max x y
  String.mk ((s.toList.drop lo).take (hi - lo))

/-- The mime-type extraction pattern used throughout VoxPage:
`src.substring(src.indexOf(':') + 1, src.indexOf(';'))`. -/
def extractMime (s : String) : String :=
  jsSubstring s (jsIndexOf s ':' + 1) (jsIndexOf s ';')

/-- JavaScript truthiness of a nullable string: null and the empty string
are falsy. -/
def jsStrTruthy : Option String → Bool
  | some s => s ≠ ""
  | none => false

/-- JavaScript `String.prototype.trim`: strip whitespace from both ends
(structurally recursive, unlike the built-in `String.trim`). -/
def jsTrim (s : String) : String :=
  String.mk (((s.toList.dropWhile Char.isWhitespace).reverse.dropWhile Char.isWhitespace).reverse)

/-- JavaScript `a || b` on nullable strings (the empty string falls through
to the right operand). -/
def jsOrElse (a b : Option String) : Option String :=
  if jsStrTruthy a then a else b

/-- Adding one element to a JavaScript `Set` (insertion order, no duplicate). -/
def insertUniq (l : List String) (a : String) : List String :=
  if a ∈ l then l else l ++ [a]

/-- `Array.from(new Set(arr))`: keeps the first occurrence of each element,
in insertion order. -/
def setFromArray (l : List String) : List String := l.foldl insertUniq []

/-- A base64 image together with its mime type (the `{ base64, mimeType }`
pairs of VoxPage). -/
structure ImageData where
  base64 : String
  mimeType : String
deriving DecidableEq, Repr

/-- `ImageInfo` from src/unnamed/part_001 (types.ts). -/
structure ImageInfo where
  src : String
  upscaledTo : Option String
  isRefined : Bool
deriving DecidableEq, Repr

/-- `VoxSettings` from types.ts: the fine-tune snapshot stored on a history
item. -/
structure VoxSettingsRec where
  negativePrompt : String
  activeStyles : List String
  detailIntensity : Nat
  aspectRatio : String
deriving DecidableEq, Repr

/-- `HistoryItem` from types.ts, with `settings` flattened into the three
`settings*` fields. -/
structure HistoryItem where
  id : String
  prompt : String
  settingsModel : String
  settingsNumberOfImages : Nat
  settingsAspectRatio : String
  images : List ImageInfo
  timestamp : Nat
  generationMode : String
  inputImage : Option String
  voxSettings : VoxSettingsRec
  videoSrc : Option String
  seed : Option Int
deriving DecidableEq, Repr

/-- The `VoxState` interface of VoxPage: the shape of one undo/redo
snapshot.  `activeStyles` is the `Array.from` of the live `Set`. -/
structure VoxState where
  prompt : String
  bgUrl1 : Option String
  bgUrl2 : Option String
  isBg1Active : Bool
  currentImage : Option ImageData
  activeHistoryItemId : Option String
  uploadedImages : List ImageData
  negativePrompt : String
  activeStyles : List String
  detailIntensity : Nat
  selectedAspectRatio : String
  imageDimensions : Option (Nat × Nat)
  currentVideoUrl : Option String
  seed : String
  lastSeed : Option Int
deriving DecidableEq, Repr

/-- The full mutable state of VoxPage that the embedded handlers touch: the
`useState` fields of src/components/VoxPage.tsx (presentation-only fields
that no embedded handler reads or writes are omitted).  The live
`activeStyles : Set<string>` is modelled as its insertion-ordered element
list, and `selectedIndices : Set<number>` likewise. -/
structure PageState where
  prompt : String
  bgUrl1 : Option String
  bgUrl2 : Option String
  isBg1Active : Bool
  isLoading : Bool
  error : Option String
  currentImage : Option ImageData
  activeHistoryItemId : Option String
  imageDimensions : Option (Nat × Nat)
  currentVideoUrl : Option String
  conversationalResponse : Option String
  uploadedImages : List ImageData
  selectedIndices : List Nat
  isPanelExpanded : Bool
  isHistoryFullWarningVisible : Bool
  isUpscalePanelOpen : Bool
  isReframePanelOpen : Bool
  selectedModel : String
  negativePrompt : String
  activeStyles : List String
  detailIntensity : Nat
  selectedAspectRatio : String
  styleReferenceImage : Option ImageData
  seed : String
  lastSeed : Option Int
  isGeneratingPrompt : Bool
  isGeneratingVariations : Bool
  isUpscaling : Bool
  isReframing : Bool
  isVideoLoading : Bool
  isChangingViewpoint : Bool
  viewpointDirection : Option String
  isAnalyzingStyle : Bool
  isSuggestingNegatives : Bool
  isAnalyzingScene : Bool
  isGeneratingVxog : Bool
  vxogPrompt : Option String
  transformScale : Int
  transformX : Int
  transformY : Int
  perspectiveActive : Bool
  is360View : Bool
  showGenerativeUI : Bool
  tokenLast : Nat
  tokenSession : Nat
  undoStack : List VoxState
  redoStack : List VoxState
  isInpaintingMode : Bool
  inpaintingPrompt : String
  isInpaintingLoading : Bool
  history : List HistoryItem
deriving DecidableEq, Repr

/-- The initial state of VoxPage: the `useState` default of every field. -/
def initialPage : PageState where
  prompt := ""
  bgUrl1 := none
  bgUrl2 := none
  isBg1Active := true
  isLoading := false
  error := none
  currentImage := none
  activeHistoryItemId := none
  imageDimensions := none
  currentVideoUrl := none
  conversationalResponse := none
  uploadedImages := []
  selectedIndices := []
  isPanelExpanded := false
  isHistoryFullWarningVisible := false
  isUpscalePanelOpen := false
  isReframePanelOpen := false
  selectedModel := "vxdl-1-fused"
  negativePrompt := ""
  activeStyles := []
  detailIntensity := 3
  selectedAspectRatio := "auto"
  styleReferenceImage := none
  seed := ""
  lastSeed := none
  isGeneratingPrompt := false
  isGeneratingVariations := false
  isUpscaling := false
  isReframing := false
  isVideoLoading := false
  isChangingViewpoint := false
  viewpointDirection := none
  isAnalyzingStyle := false
  isSuggestingNegatives := false
  isAnalyzingScene := false
  isGeneratingVxog := false
  vxogPrompt := none
  transformScale := 1
  transformX := 0
  transformY := 0
  perspectiveActive := false
  is360View := false
  showGenerativeUI := true
  tokenLast := 0
  tokenSession := 0
  undoStack := []
  redoStack := []
  isInpaintingMode := false
  inpaintingPrompt := ""
  isInpaintingLoading := false
  history := []

/-- `captureState` of VoxPage: the deep snapshot of the creation state
(`Array.from(activeStyles)` is the identity on the modelled element list). -/
def captureState (p : PageState) : VoxState where
  prompt := p.prompt
  bgUrl1 := p.bgUrl1
  bgUrl2 := p.bgUrl2
  isBg1Active := p.isBg1Active
  currentImage := p.currentImage
  activeHistoryItemId := p.activeHistoryItemId
  uploadedImages := p.uploadedImages
  negativePrompt := p.negativePrompt
  activeStyles := p.activeStyles
  detailIntensity := p.detailIntensity
  selectedAspectRatio := p.selectedAspectRatio
  imageDimensions := p.imageDimensions
  currentVideoUrl := p.currentVideoUrl
  seed := p.seed
  lastSeed := p.lastSeed

/-- `resetTransform` of VoxPage: pan/zoom back to identity and the 360-view
perspective cleared. -/
def resetTransform (p : PageState) : PageState :=
  { p with transformScale := 1, transformX := 0, transformY := 0, perspectiveActive := false }

/-- `restoreState` of VoxPage applied to a non-null snapshot: every
snapshot field is written back (`new Set(state.activeStyles)` keeps first
occurrences), the transform is reset, and the panel expansion is recomputed
from the restored media fields. -/
def restoreState (s : VoxState) (p : PageState) : PageState :=
  let p1 : PageState :=
    { p with
      prompt := s.prompt
      bgUrl1 := s.bgUrl1
      bgUrl2 := s.bgUrl2
      isBg1Active := s.isBg1Active
      currentImage := s.currentImage
      activeHistoryItemId := s.activeHistoryItemId
      uploadedImages := s.uploadedImages
      negativePrompt := s.negativePrompt
      activeStyles := setFromArray s.activeStyles
      detailIntensity := s.detailIntensity
      selectedAspectRatio := s.selectedAspectRatio
      imageDimensions := s.imageDimensions
      currentVideoUrl := s.currentVideoUrl
      seed := s.seed
      lastSeed := s.lastSeed }
  { (resetTransform p1) with
    isPanelExpanded := jsStrTruthy s.bgUrl1 || jsStrTruthy s.bgUrl2
      || jsStrTruthy s.currentVideoUrl }

/-- `saveStateForUndo`: push the capture of the current state onto the undo
stack, keeping only the last `MAX_UNDO_STACK_SIZE - 1` previous entries
(`prev.slice(-MAX_UNDO_STACK_SIZE + 1)`), and clear the redo stack. -/
def saveStateForUndo (p : PageState) : PageState :=
  { p with
    undoStack := takeRight p.undoStack (MAX_UNDO_STACK_SIZE - 1) ++ [captureState p]
    redoStack := [] }

/-- `handleUndo`: no-op on an empty undo stack; otherwise capture the
current state onto the redo stack, pop the undo stack, restore the popped
snapshot. -/
def handleUndo (p : PageState) : PageState :=
  match p.undoStack.getLast? with
  | none => p
  | some prev =>
      let current := captureState p
      restoreState prev
        { p with undoStack := p.undoStack.dropLast, redoStack := p.redoStack ++ [current] }

/-- `handleRedo`: symmetric to `handleUndo`. -/
def handleRedo (p : PageState) : PageState :=
  match p.redoStack.getLast? with
  | none => p
  | some next =>
      let current := captureState p
      restoreState next
        { p with redoStack := p.redoStack.dropLast, undoStack := p.undoStack ++ [current] }

/-- `handleMediaSuccess(mediaSrc, isVideo)`: a video replaces and clears all
image state; an image clears the video and, once decoded (`load` holds the
natural dimensions, or `none` when decoding failed), writes into the slot
dictated by the double-buffer logic.  Always resets the transform and
expands the panel. -/
def handleMediaSuccess (load : Option (Nat × Nat)) (mediaSrc : String) (isVideo : Bool)
    (p : PageState) : PageState :=
  let p1 : PageState :=
    if isVideo then
      { p with currentVideoUrl := some mediaSrc, bgUrl1 := none, bgUrl2 := none,
               currentImage := none, imageDimensions := none }
    else
      let p2 : PageState :=
        match load with
        | some wh =>
            let p3 : PageState := { p with imageDimensions := some wh }
            if !(jsStrTruthy p3.bgUrl1) && !(jsStrTruthy p3.bgUrl2) then
              { p3 with bgUrl1 := some mediaSrc }
            else if p3.isBg1Active then { p3 with bgUrl2 := some mediaSrc, isBg1Active := false }
            else { p3 with bgUrl1 := some mediaSrc, isBg1Active := true }
        | none =>
            { p with error := some "Failed to load the generated image.", imageDimensions := none }
      { p2 with currentVideoUrl := none }
  { (resetTransform p1) with isPanelExpanded := true }

/-- Modelled from the spec: the history-ledger callbacks (`addToHistory`,
`deleteHistoryItems`, `updateHistoryItem`, `clearHistory`) are props handed
to VoxPage by an app shell that is not part of src/.  Per spec section 4.4
the ledger is a bounded ordered collection, most-recent-appended-last, and
`append` adds the record; the bound itself is enforced by VoxPage before
calling. -/
def addToHistory (history : List HistoryItem) (item : HistoryItem) : List HistoryItem :=
  history ++ [item]

/-- Modelled from the spec: `delete(ids)` removes the records with the given
ids unconditionally (spec section 4.4). -/
def deleteHistoryItems (history : List HistoryItem) (ids : List String) : List HistoryItem :=
  history.filter (fun it => !(ids.contains it.id))

/-- Modelled from the spec: `updateImages(id, newImages)` replaces the
`images` field of the matching record in place and is a no-op when the id
is not found (spec section 4.4). -/
def updateHistoryItem (history : List HistoryItem) (itemId : String)
    (newImages : List ImageInfo) : List HistoryItem :=
  history.map (fun it => if it.id = itemId then { it with images := newImages } else it)

/-- `STYLE_PRESETS` from src/constants.ts (name, keywords). -/
def stylePresets : List (String × String) :=
  [("Cinematic", "cinematic, film grain, dramatic lighting, professional cinematography"),
   ("Photorealistic", "photorealistic, 8k, ultra detailed, sharp focus, high quality photo"),
   ("Hyper-realistic", "hyperrealistic, masterpiece, best quality, ultra-detailed, cinematic photography, sharp focus, professional color grading, 8k"),
   ("Anime", "anime style, vibrant colors, clean line art, studio ghibli inspired"),
   ("Fantasy", "fantasy art, epic, magical, glowing elements, matte painting"),
   ("Cyberpunk", "cyberpunk, neon lights, futuristic city, dystopian, high tech"),
   ("Vintage", "vintage photo, sepia tones, 1950s photograph, grainy")]

/-- `DETAIL_LEVELS` from src/constants.ts; an index outside the map is
undefined in JS and therefore skipped (modelled as the empty string). -/
def detailLevels : Nat → String
  | 1 => "simple sketch, basic shapes"
  | 2 => ""
  | 3 => "detailed, intricate details"
  | 4 => "highly detailed, professional digital art"
  | 5 => "hyperrealistic, 8k resolution, masterpiece, breathtaking detail"
  | _ => ""

/-- `constructFinalPrompt` of VoxPage: base prompt plus active style
keywords, detail keywords, and a `--no` suffix for a non-blank negative
prompt. -/
def constructFinalPrompt (p : PageState) : String :=
  let styleKeywords :=
    String.intercalate ", "
      (p.activeStyles.map (fun name =>
        (((stylePresets.find? (fun pr => pr.fst = name)).map Prod.snd).getD "")))
  let fp := p.prompt
  let fp := if styleKeywords ≠ "" then fp ++ ", " ++ styleKeywords else fp
  let dk := detailLevels p.detailIntensity
  let fp := if dk ≠ "" then fp ++ ", " ++ dk else fp
  if jsTrim p.negativePrompt ≠ "" then fp ++ " --no " ++ jsTrim p.negativePrompt else fp

/-- `getActiveAspectRatio` of VoxPage: the explicit selection, or the ratio
bucket of the window (`winW` / `winH` are `window.innerWidth/Height`; the
float comparisons `ratio > 1.5` etc. are exact on the integer cross
products). -/
def getActiveAspectRatio (winW winH : Nat) (p : PageState) : String :=
  if p.selectedAspectRatio ≠ "auto" then p.selectedAspectRatio
  else if 2 * winW > 3 * winH then "16:9"
  else if 5 * winW > 6 * winH then "4:3"
  else if 5 * winW > 4 * winH then "1:1"
  else if 5 * winW > 3 * winH then "3:4"
  else "9:16"

/-- `createAndStoreHistoryItem` of VoxPage: raises the history-full warning
instead of appending when the ledger is at capacity; otherwise builds the
record (id and timestamp come from the clock, modelled as parameters) and
appends it, marking it active. -/
def createAndStoreHistoryItem (newId : String) (now : Nat)
    (thumbnail : List ImageInfo) (userPrompt : String)
    (settingsModel : String) (settingsNum : Nat) (settingsRatio : String)
    (mode : String) (videoSrc : Option String) (seedUsed : Option Int)
    (p : PageState) : PageState :=
  if MAX_HISTORY_ITEMS ≤ p.history.length then
    { p with isHistoryFullWarningVisible := true }
  else
    let item : HistoryItem :=
      { id := newId
        prompt := userPrompt
        settingsModel := settingsModel
        settingsNumberOfImages := settingsNum
        settingsAspectRatio := settingsRatio
        images := thumbnail
        timestamp := now
        generationMode := mode
        inputImage := p.currentImage.map ImageData.base64
        voxSettings :=
          { negativePrompt := p.negativePrompt
            activeStyles := p.activeStyles
            detailIntensity := p.detailIntensity
            aspectRatio := p.selectedAspectRatio }
        videoSrc := videoSrc
        seed := seedUsed }
    { p with history := addToHistory p.history item, activeHistoryItemId := some newId }

/-- `updateTokenUsage`. -/
def updateTokenUsage (cost : Nat) (p : PageState) : PageState :=
  { p with tokenLast := cost, tokenSession := p.tokenSession + cost }

/-- The magic prefix the service layer puts on content-policy refusals. -/
def refusalPrefix : String := "Model refusal: "

/-- The shared catch-block of every operation handler: a message starting
with the refusal prefix becomes the conversational banner (with the first
occurrence of the prefix removed), anything else becomes the error
banner. -/
def classifyFailure (msg : String) (p : PageState) : PageState :=
  if msg.startsWith refusalPrefix then
    { p with conversationalResponse := some (msg.drop refusalPrefix.length) }
  else
    { p with error := some msg }

/-- `currentImage?.base64 || (isBg1Active ? bgUrl1 : bgUrl2)`: the source
image every image-to-image operation starts from. -/
def activeImageSrc (p : PageState) : Option String :=
  jsOrElse (p.currentImage.map ImageData.base64)
    (if p.isBg1Active then p.bgUrl1 else p.bgUrl2)

/-- Events observable in a handler run: an undo checkpoint being recorded,
and a GenerationService call being issued. -/
inductive Ev
  | checkpoint
  | svcCall
deriving DecidableEq, Repr

/-- The outcomes of the asynchronous collaborators for one handler run:
each GenerationService function either returns its payload or throws a
message, image decoding yields natural dimensions or fails, and the clock
provides the new record id and timestamp. -/
structure Env where
  genResult : Except String (List String × Int)
  combineResult : Except String (List String)
  upscaleResult : Except String String
  videoResult : Except String String
  surpriseResult : Except String String
  variationsResult : Except String (List String)
  reframeResult : Except String (List String)
  viewpointResult : Except String String
  inpaintResult : Except String (List String)
  analyzeSceneResult : Except String String
  suggestNegResult : Except String String
  styleResult : Except String String
  load : Option (Nat × Nat)
  newId : String
  now : Nat
  winW : Nat
  winH : Nat
  canvasPresent : Bool
deriving Repr

/-- The model id hard-coded for every image-to-image history record. -/
def imageToImageModel : String := "gemini-2.5-flash-image-preview"

/-- `handleGenerateOrEdit`: blank prompt aborts silently, a full ledger
aborts with the warning; otherwise checkpoint, set busy, clear banners and
video, call the service (edit when an edit-source image is present,
generate otherwise), and commit or classify the failure. -/
def handleGenerateOrEdit (env : Env) (p : PageState) : PageState × List Ev :=
  if jsTrim p.prompt = "" then (p, [])
  else if MAX_HISTORY_ITEMS ≤ p.history.length then
    ({ p with isHistoryFullWarningVisible := true }, [])
  else
    let q := saveStateForUndo p
    let q : PageState :=
      { q with isLoading := true, error := none, currentVideoUrl := none,
               conversationalResponse := none }
    let activeRatio := getActiveAspectRatio env.winW env.winH q
    let isEdit := q.currentImage.isSome
    let modelUsedForHistory := if isEdit then imageToImageModel else q.selectedModel
    let q1 : PageState :=
      match env.genResult with
      | Except.error msg => classifyFailure msg q
      | Except.ok genRes =>
          let q := if isEdit then q else { q with selectedAspectRatio := activeRatio }
          match genRes.fst with
          | [] =>
              classifyFailure "The model did not return an image. Please try a different prompt." q
          | newImageSrc :: _ =>
              let q : PageState := { q with lastSeed := some genRes.snd }
              let q := handleMediaSuccess env.load newImageSrc false q
              let q := createAndStoreHistoryItem env.newId env.now
                        [{ src := newImageSrc, upscaledTo := none, isRefined := false }]
                        q.prompt modelUsedForHistory 1 activeRatio
                        (if isEdit then "image-to-image" else "text-to-image")
                        none (some genRes.snd) q
              let q := updateTokenUsage (if isEdit then 350 else 250) q
              if isEdit then
                { q with currentImage :=
                           some { base64 := newImageSrc, mimeType := extractMime newImageSrc },
                         prompt := "" }
              else
                { q with currentImage := none }
    ({ q1 with isLoading := false }, [Ev.checkpoint, Ev.svcCall])

/-- `handleGenerateVideo`. -/
def handleGenerateVideo (env : Env) (p : PageState) : PageState × List Ev :=
  if jsTrim p.prompt = "" then (p, [])
  else if MAX_HISTORY_ITEMS ≤ p.history.length then
    ({ p with isHistoryFullWarningVisible := true }, [])
  else
    let q := saveStateForUndo p
    let q : PageState :=
      { q with isVideoLoading := true, error := none, conversationalResponse := none }
    let q1 : PageState :=
      match env.videoResult with
      | Except.error msg => classifyFailure msg q
      | Except.ok videoUrl => updateTokenUsage 1000 (handleMediaSuccess env.load videoUrl true q)
    ({ q1 with isVideoLoading := false }, [Ev.checkpoint, Ev.svcCall])

/-- `handleCombineImages`: requires at least two selected staged images and
a non-blank prompt. -/
def handleCombineImages (env : Env) (p : PageState) : PageState × List Ev :=
  if p.selectedIndices.length < 2 || jsTrim p.prompt = "" then (p, [])
  else if MAX_HISTORY_ITEMS ≤ p.history.length then
    ({ p with isHistoryFullWarningVisible := true }, [])
  else
    let q := saveStateForUndo p
    let q : PageState :=
      { q with isLoading := true, error := none, conversationalResponse := none }
    let q1 : PageState :=
      match env.combineResult with
      | Except.error msg => classifyFailure msg q
      | Except.ok [] => classifyFailure "The model did not combine the images." q
      | Except.ok (newImageSrc :: _) =>
          let q := handleMediaSuccess env.load newImageSrc false q
          let q := createAndStoreHistoryItem env.newId env.now
                    [{ src := newImageSrc, upscaledTo := none, isRefined := false }]
                    q.prompt imageToImageModel 1 (getActiveAspectRatio env.winW env.winH q)
                    "image-to-image" none none q
          let q := updateTokenUsage 500 q
          { q with currentImage :=
                     some { base64 := newImageSrc, mimeType := extractMime newImageSrc },
                   prompt := "", uploadedImages := [], selectedIndices := [] }
    ({ q1 with isLoading := false }, [Ev.checkpoint, Ev.svcCall])

/-- `handleUpscale`: closes its panel, then errors out (without any
history-capacity check) when there is no active image or active history
record; otherwise checkpoint, call the service, and on success update the
active history record in place. -/
def handleUpscale (env : Env) (resolution : String) (p : PageState) : PageState × List Ev :=
  let p : PageState := { p with isUpscalePanelOpen := false }
  let imageToUpscale := activeImageSrc p
  if !(jsStrTruthy imageToUpscale) || p.activeHistoryItemId.isNone then
    ({ p with error := some "No active image to upscale." }, [])
  else
    let q := saveStateForUndo p
    let q : PageState :=
      { q with isUpscaling := true, error := none, conversationalResponse := none }
    let q1 : PageState :=
      match env.upscaleResult with
      | Except.error msg => classifyFailure msg q
      | Except.ok upscaledSrc =>
          let q := handleMediaSuccess env.load upscaledSrc false q
          let q : PageState :=
            { q with currentImage :=
                       some { base64 := upscaledSrc, mimeType := extractMime upscaledSrc } }
          let q : PageState :=
            { q with history :=
                       updateHistoryItem q.history (p.activeHistoryItemId.getD "")
                         [{ src := upscaledSrc, upscaledTo := some resolution, isRefined := false }] }
          updateTokenUsage 150 q
    ({ q1 with isUpscaling := false }, [Ev.checkpoint, Ev.svcCall])

/-- `handleSurpriseMe`: no precondition, no history-capacity check and no
undo checkpoint; calls the creative-prompt service and writes the returned
prompt. -/
def handleSurpriseMe (env : Env) (p : PageState) : PageState × List Ev :=
  let q : PageState :=
    { p with isGeneratingPrompt := true, error := none, conversationalResponse := none }
  let q1 : PageState :=
    match env.surpriseResult with
    | Except.error msg => classifyFailure msg q
    | Except.ok creativePrompt => updateTokenUsage 50 { q with prompt := creativePrompt }
  ({ q1 with isGeneratingPrompt := false }, [Ev.svcCall])

/-- `handleGenerateVariations`. -/
def handleGenerateVariations (env : Env) (p : PageState) : PageState × List Ev :=
  let imageForVariations := activeImageSrc p
  if !(jsStrTruthy imageForVariations) then (p, [])
  else if MAX_HISTORY_ITEMS ≤ p.history.length then
    ({ p with isHistoryFullWarningVisible := true }, [])
  else
    let q := saveStateForUndo p
    let q : PageState :=
      { q with isGeneratingVariations := true, error := none, conversationalResponse := none }
    let q1 : PageState :=
      match env.variationsResult with
      | Except.error msg => classifyFailure msg q
      | Except.ok [] => classifyFailure "The model did not return any variations." q
      | Except.ok (first :: _) =>
          let q := handleMediaSuccess env.load first false q
          let q := createAndStoreHistoryItem env.newId env.now
                    [{ src := first, upscaledTo := none, isRefined := false }]
                    ("Variations of: " ++ (if q.prompt = "" then "input image" else q.prompt))
                    imageToImageModel 1 (getActiveAspectRatio env.winW env.winH q)
                    "image-to-image" none none q
          let q := updateTokenUsage 300 q
          { q with currentImage := some { base64 := first, mimeType := extractMime first } }
    ({ q1 with isGeneratingVariations := false }, [Ev.checkpoint, Ev.svcCall])

/-- `handleReframe`. -/
def handleReframe (env : Env) (newRatio : String) (p : PageState) : PageState × List Ev :=
  let p : PageState := { p with isReframePanelOpen := false }
  let imageToReframe := activeImageSrc p
  if !(jsStrTruthy imageToReframe) then (p, [])
  else if MAX_HISTORY_ITEMS ≤ p.history.length then
    ({ p with isHistoryFullWarningVisible := true }, [])
  else
    let q := saveStateForUndo p
    let q : PageState :=
      { q with isReframing := true, error := none, conversationalResponse := none }
    let q1 : PageState :=
      match env.reframeResult with
      | Except.error msg => classifyFailure msg q
      | Except.ok [] => classifyFailure "The model did not return a reframed image." q
      | Except.ok (newImageSrc :: _) =>
          let q := handleMediaSuccess env.load newImageSrc false q
          let q := createAndStoreHistoryItem env.newId env.now
                    [{ src := newImageSrc, upscaledTo := none, isRefined := false }]
                    ("Reframe of: " ++ (if q.prompt = "" then "input image" else q.prompt))
                    imageToImageModel 1 newRatio "image-to-image" none none q
          let q := updateTokenUsage 200 q
          { q with currentImage :=
                     some { base64 := newImageSrc, mimeType := extractMime newImageSrc },
                   selectedAspectRatio := newRatio }
    ({ q1 with isReframing := false }, [Ev.checkpoint, Ev.svcCall])

/-- `handleChangeViewpoint`: guards, in source order, on a source image,
the history-capacity check, and its own in-flight flag only. -/
def handleChangeViewpoint (env : Env) (direction : String) (p : PageState) : PageState × List Ev :=
  let sourceImage := activeImageSrc p
  if !(jsStrTruthy sourceImage) then (p, [])
  else if MAX_HISTORY_ITEMS ≤ p.history.length then
    ({ p with isHistoryFullWarningVisible := true }, [])
  else if p.isChangingViewpoint then (p, [])
  else
    let q := saveStateForUndo p
    let q : PageState :=
      { q with isChangingViewpoint := true, viewpointDirection := some direction,
               error := none, conversationalResponse := none }
    let q1 : PageState :=
      match env.viewpointResult with
      | Except.error msg => classifyFailure msg q
      | Except.ok newImageSrc =>
          let q := handleMediaSuccess env.load newImageSrc false q
          let q := createAndStoreHistoryItem env.newId env.now
                    [{ src := newImageSrc, upscaledTo := none, isRefined := false }]
                    ("Change viewpoint to " ++ direction ++ ": "
                      ++ (if q.prompt = "" then "input image" else q.prompt))
                    imageToImageModel 1 (getActiveAspectRatio env.winW env.winH q)
                    "image-to-image" none none q
          let q := updateTokenUsage 200 q
          { q with currentImage :=
                     some { base64 := newImageSrc, mimeType := extractMime newImageSrc } }
    ({ q1 with isChangingViewpoint := false, viewpointDirection := none }, [Ev.checkpoint, Ev.svcCall])

/-- `handleApplyInpainting`: requires a source image, the mask canvas, a
non-blank inpainting prompt and ledger capacity; on success leaves
inpainting mode. -/
def handleApplyInpainting (env : Env) (p : PageState) : PageState × List Ev :=
  let imageToInpaint := activeImageSrc p
  if !(jsStrTruthy imageToInpaint) || !env.canvasPresent || jsTrim p.inpaintingPrompt = "" then
    (p, [])
  else if MAX_HISTORY_ITEMS ≤ p.history.length then
    ({ p with isHistoryFullWarningVisible := true }, [])
  else
    let q := saveStateForUndo p
    let q : PageState :=
      { q with isInpaintingLoading := true, error := none, conversationalResponse := none }
    let q1 : PageState :=
      match env.inpaintResult with
      | Except.error msg => classifyFailure msg q
      | Except.ok [] => classifyFailure "Inpainting failed to return an image." q
      | Except.ok (newImageSrc :: _) =>
          let q := handleMediaSuccess env.load newImageSrc false q
          let q := createAndStoreHistoryItem env.newId env.now
                    [{ src := newImageSrc, upscaledTo := none, isRefined := true }]
                    ("Inpaint: " ++ q.inpaintingPrompt)
                    imageToImageModel 1 (getActiveAspectRatio env.winW env.winH q)
                    "image-to-image" none none q
          let q := updateTokenUsage 300 q
          let q : PageState :=
            { q with currentImage :=
                       some { base64 := newImageSrc, mimeType := extractMime newImageSrc } }
          { q with isInpaintingMode := false, inpaintingPrompt := "" }
    ({ q1 with isInpaintingLoading := false }, [Ev.checkpoint, Ev.svcCall])

/-- `handleAnalyzeScene`: pure analysis; clears both banners, no
checkpoint, writes the suggestions into the conversational banner. -/
def handleAnalyzeScene (env : Env) (p : PageState) : PageState × List Ev :=
  let imageToAnalyze := activeImageSrc p
  if !(jsStrTruthy imageToAnalyze) then (p, [])
  else
    let q : PageState :=
      { p with isAnalyzingScene := true, error := none, conversationalResponse := none }
    let q1 : PageState :=
      match env.analyzeSceneResult with
      | Except.error msg => classifyFailure msg q
      | Except.ok suggestions =>
          updateTokenUsage 100 { q with conversationalResponse := some suggestions }
    ({ q1 with isAnalyzingScene := false }, [Ev.svcCall])

/-- `handleSuggestNegatives`: pure analysis; clears only the error banner
(not the conversational one), no checkpoint, and its catch block does not
classify refusals. -/
def handleSuggestNegatives (env : Env) (p : PageState) : PageState × List Ev :=
  if jsTrim p.prompt = "" then (p, [])
  else
    let q : PageState := { p with isSuggestingNegatives := true, error := none }
    let q1 : PageState :=
      match env.suggestNegResult with
      | Except.error msg => { q with error := some msg }
      | Except.ok suggestions =>
          updateTokenUsage 50
            { q with negativePrompt :=
                       if q.negativePrompt = "" then suggestions
                       else q.negativePrompt ++ ", " ++ suggestions }
    ({ q1 with isSuggestingNegatives := false }, [Ev.svcCall])

/-- `handleApplyStyle`: pure analysis; clears only the error banner, no
checkpoint. -/
def handleApplyStyle (env : Env) (p : PageState) : PageState × List Ev :=
  if p.styleReferenceImage.isNone then (p, [])
  else
    let q : PageState := { p with isAnalyzingStyle := true, error := none }
    let q1 : PageState :=
      match env.styleResult with
      | Except.error msg => { q with error := some msg }
      | Except.ok styleKeywords =>
          updateTokenUsage 100
            { q with prompt :=
                       if q.prompt = "" then styleKeywords
                       else q.prompt ++ ", " ++ styleKeywords }
    ({ q1 with isAnalyzingStyle := false }, [Ev.svcCall])

/-- The nine generation-style operations of the spec. -/
inductive GenOp
  | generateOrEdit
  | generateVideo
  | combine
  | upscale
  | reframe
  | variations
  | changeViewpoint
  | inpaint
  | surpriseMe
deriving DecidableEq, Repr

/-- The operation-specific arguments (upscale resolution, reframe ratio,
viewpoint direction). -/
structure OpArgs where
  resolution : String
  ratio : String
  direction : String
deriving DecidableEq, Repr

/-- Dispatch one generation-style operation. -/
def runOp (op : GenOp) (env : Env) (args : OpArgs) (p : PageState) : PageState × List Ev :=
  match op with
  | GenOp.generateOrEdit => handleGenerateOrEdit env p
  | GenOp.generateVideo => handleGenerateVideo env p
  | GenOp.combine => handleCombineImages env p
  | GenOp.upscale => handleUpscale env args.resolution p
  | GenOp.reframe => handleReframe env args.ratio p
  | GenOp.variations => handleGenerateVariations env p
  | GenOp.changeViewpoint => handleChangeViewpoint env args.direction p
  | GenOp.inpaint => handleApplyInpainting env p
  | GenOp.surpriseMe => handleSurpriseMe env p

/-- `isBusy`: the OR of all per-operation in-flight flags. -/
def isBusy (p : PageState) : Bool :=
  p.isLoading || p.isUpscaling || p.isGeneratingPrompt || p.isGeneratingVariations ||
  p.isReframing || p.isVideoLoading || p.isChangingViewpoint || p.isAnalyzingScene ||
  p.isAnalyzingStyle || p.isSuggestingNegatives || p.isInpaintingLoading || p.isGeneratingVxog

/-- `hasMedia`: JS truthiness of `bgUrl1 || bgUrl2 || currentVideoUrl`. -/
def hasMedia (p : PageState) : Bool :=
  jsStrTruthy p.bgUrl1 || jsStrTruthy p.bgUrl2 || jsStrTruthy p.currentVideoUrl

/-- The derived operation mode, recomputed on every render. -/
inductive OperationMode
  | combineMode
  | editMode
  | generateMode
deriving DecidableEq, Repr

/-- `operationMode = selectedIndices.size >= 2 ? combine : currentImage ? edit : generate`. -/
def operationMode (p : PageState) : OperationMode :=
  if 2 ≤ p.selectedIndices.length then OperationMode.combineMode
  else if p.currentImage.isSome then OperationMode.editMode
  else OperationMode.generateMode

/-- `handlePrimaryAction`: combine when in combine mode, otherwise
generate-or-edit. -/
def handlePrimaryAction (env : Env) (p : PageState) : PageState × List Ev :=
  if operationMode p = OperationMode.combineMode then handleCombineImages env p
  else handleGenerateOrEdit env p

/-- `enterInpaintingMode`. -/
def enterInpaintingMode (p : PageState) : PageState :=
  if !(hasMedia p) || jsStrTruthy p.currentVideoUrl then p
  else { (resetTransform p) with isInpaintingMode := true }

/-- `currentImageInfo`: the first image of the active history record. -/
def currentImageInfo (p : PageState) : Option ImageInfo :=
  match p.activeHistoryItemId with
  | none => none
  | some hid => (p.history.find? (fun it => it.id = hid)).bind (fun it => it.images.head?)

/-- The UI triggers that can start the generation-style operations,
together with the conditions under which each is rendered and enabled in
the JSX of VoxPage — including the upscale resolution and reframe ratio
buttons inside their panels and the inpaint-apply button, which carry no
`isBusy` gate of their own. -/
inductive Trigger
  | primaryButton
  | generateVideoButton
  | surpriseMeButton
  | variationsButton
  | inpaintEntryButton
  | upscalePanelToggle
  | reframePanelToggle
  | viewpointArrow
  | upscaleResolutionButton
  | reframeRatioButton
  | inpaintApplyButton
deriving DecidableEq, Repr

/-- Fire one trigger: a trigger that is not rendered or whose `disabled`
predicate holds does nothing; otherwise its click handler runs.  The
render and `disabled` predicates are transcribed from the JSX.  Only the
primary button, the generate-video, surprise-me and variations buttons,
and the inpainting-entry and upscale/reframe panel toggles are gated on
`isBusy`; the change-viewpoint arrows are gated only on
`isChangingViewpoint`, the upscale resolution and reframe ratio buttons
(VoxPage.tsx lines 1375-1376) have no `disabled` attribute at all, and
the inpaint-apply button (line 1412) is gated only on
`isInpaintingLoading` and a non-blank inpainting prompt. -/
def fireTrigger (t : Trigger) (env : Env) (args : OpArgs) (p : PageState) :
    PageState × List Ev :=
  match t with
  | Trigger.primaryButton =>
      if isBusy p || (operationMode p ≠ OperationMode.combineMode && jsTrim p.prompt = "") then
        (p, [])
      else handlePrimaryAction env p
  | Trigger.generateVideoButton =>
      if isBusy p || jsTrim p.prompt = "" then (p, [])
      else handleGenerateVideo env p
  | Trigger.surpriseMeButton =>
      if isBusy p then (p, []) else handleSurpriseMe env p
  | Trigger.variationsButton =>
      if !(hasMedia p) || isBusy p then (p, [])
      else handleGenerateVariations env p
  | Trigger.inpaintEntryButton =>
      if !(hasMedia p) || jsStrTruthy p.currentVideoUrl || isBusy p then (p, [])
      else (enterInpaintingMode p, [])
  | Trigger.upscalePanelToggle =>
      if !(hasMedia p) || jsStrTruthy p.currentVideoUrl || isBusy p
         || ((currentImageInfo p).bind ImageInfo.upscaledTo) = some "4x" then (p, [])
      else ({ p with isUpscalePanelOpen := !p.isUpscalePanelOpen }, [])
  | Trigger.reframePanelToggle =>
      if !(hasMedia p) || jsStrTruthy p.currentVideoUrl || isBusy p then (p, [])
      else ({ p with isReframePanelOpen := !p.isReframePanelOpen }, [])
  | Trigger.viewpointArrow =>
      if !(p.is360View && p.showGenerativeUI) || p.isChangingViewpoint then (p, [])
      else handleChangeViewpoint env args.direction p
  | Trigger.upscaleResolutionButton =>
      if !(hasMedia p) || jsStrTruthy p.currentVideoUrl || !p.isUpscalePanelOpen
         || (args.resolution = "2x"
              && ((currentImageInfo p).bind ImageInfo.upscaledTo) = some "2x") then (p, [])
      else handleUpscale env args.resolution p
  | Trigger.reframeRatioButton =>
      if !(hasMedia p) || jsStrTruthy p.currentVideoUrl || !p.isReframePanelOpen then (p, [])
      else handleReframe env args.ratio p
  | Trigger.inpaintApplyButton =>
      if !p.isInpaintingMode || p.isInpaintingLoading || jsTrim p.inpaintingPrompt = "" then
        (p, [])
      else handleApplyInpainting env p

/-- A file from a selection dialog, already read by the FileReader into a
data URL. -/
structure JsFile where
  dataUrl : String
  mimeType : String
deriving DecidableEq, Repr

/-- The images produced from a file selection after the capping
`Array.from(files).slice(0, 6 - uploadedImages.length)`. -/
def selectedNewImages (files : Option (List JsFile)) (p : PageState) : List ImageData :=
  match files with
  | none => []
  | some fs =>
      (jsSliceTo fs ((6 : Int) - (p.uploadedImages.length : Int))).map
        (fun f => { base64 := f.dataUrl, mimeType := f.mimeType })

/-- `handleFilesSelected`: a null selection does nothing; exactly one
resulting image becomes the edit-source image and displayed media after a
checkpoint, clearing staging, selection and prompt; two or more are
appended to the staging area. -/
def handleFilesSelected (files : Option (List JsFile)) (load : Option (Nat × Nat))
    (p : PageState) : PageState :=
  match files with
  | none => p
  | some _ =>
      match selectedNewImages files p with
      | [firstImage] =>
          let q := saveStateForUndo p
          let q : PageState := { q with currentImage := some firstImage }
          let q := handleMediaSuccess load firstImage.base64 false q
          { q with prompt := "", uploadedImages := [], selectedIndices := [] }
      | [] => p
      | newImages => { p with uploadedImages := p.uploadedImages ++ newImages }

/-- The state of COSPage that `handleGenerate` and `handleCancel` touch.
`styleSelected` stands for `selectedStyle !== null` and `styleIsCustom` for
`selectedStyle === 'custom'`. -/
structure CosState where
  inputImage : Option ImageData
  styleSelected : Bool
  styleIsCustom : Bool
  manualPrompt : String
  isGenerating : Bool
  generatedImages : List String
  progressCurrent : Nat
  progressTotal : Nat
  error : Option String
  tokenUsage : Nat
deriving DecidableEq, Repr

/-- Whether the cooperative cancellation flag is already set when the loop
checks it at the top of iteration `i` (the flag is raised during the await
of iteration `cancelAt`, so iteration `i` observes it only when
`cancelAt < i`). -/
def cosCancelledBeforeCheck (cancelAt : Option Nat) (i : Nat) : Bool :=
  match cancelAt with
  | some j => j < i
  | none => false

/-- Whether the cancellation flag is set by the time the catch block of
iteration `i` runs (the flag raised during the await of iteration `i` is
visible there). -/
def cosCancelledAtCatch (cancelAt : Option Nat) (i : Nat) : Bool :=
  match cancelAt with
  | some j => j ≤ i
  | none => false

/-- The sequential loop of COSPage `handleGenerate`: before each iteration
the cancellation flag is checked; the awaited result of the current
iteration is always processed (pushed and shown when non-empty); a thrown
error is swallowed when cancellation has occurred, and otherwise becomes
the error banner; either way an error exits the loop. -/
def cosLoop (results : Nat → Except String (List String)) (cancelAt : Option Nat)
    (i : Nat) (fuel : Nat) (st : CosState) : CosState :=
  match fuel with
  | 0 => st
  | fuel + 1 =>
      if cosCancelledBeforeCheck cancelAt i then st
      else
        let st : CosState := { st with progressCurrent := i }
        match results i with
        | Except.error msg =>
            if cosCancelledAtCatch cancelAt i then st
            else { st with error := some msg }
        | Except.ok result =>
            let st : CosState :=
              match result with
              | [] => st
              | first :: _ =>
                  { st with generatedImages := st.generatedImages ++ [first],
                            tokenUsage := st.tokenUsage + 300 }
            cosLoop results cancelAt (i + 1) fuel st

/-- COSPage `handleGenerate`: guarded on an input image, a selected style,
and a non-blank manual prompt for the custom style; resets the result
state, runs the 20-iteration loop, and clears the busy flag in a finally
block.  `results i` is the outcome of the service call of iteration `i`;
`cancelAt = some j` means `handleCancel` ran while call `j` was in
flight. -/
def cosHandleGenerate (results : Nat → Except String (List String)) (cancelAt : Option Nat)
    (st : CosState) : CosState :=
  if st.inputImage.isNone || !st.styleSelected then st
  else if st.styleIsCustom && jsTrim st.manualPrompt = "" then st
  else
    let st : CosState :=
      { st with isGenerating := true, generatedImages := [], error := none,
                progressCurrent := 0, progressTotal := 20, tokenUsage := 0 }
    let st := cosLoop results cancelAt 1 20 st
    { st with isGenerating := false }

/-- The successful first images of iterations `i, i+1, ...` (at most `fuel`
of them) up to and including iteration `c`: the observer the cancellation
theorem compares the loop against. -/
def cosFirstsFrom (results : Nat → Except String (List String)) (c : Nat)
    (i : Nat) (fuel : Nat) : List String :=
  match fuel with
  | 0 => []
  | fuel + 1 =>
      if c < i then []
      else
        (match results i with
         | Except.ok (x :: _) => [x]
         | _ => []) ++ cosFirstsFrom results c (i + 1) fuel

/-! ### Basic lemmas about the JavaScript Set model -/

theorem insertUniq_nodup (l : List String) (a : String) (h : l.Nodup) :
    (insertUniq l a).Nodup := by
  unfold insertUniq
  by_cases hm : a ∈ l
  · simpa [hm]
  · simp [hm, List.nodup_append, h]

theorem foldl_insertUniq_nodup :
    ∀ (l acc : List String), acc.Nodup → (l.foldl insertUniq acc).Nodup := by
  intro l
  induction l with
  | nil => intro acc h; simpa
  | cons a l ih =>
      intro acc h
      simpa [List.foldl_cons] using ih (insertUniq acc a) (insertUniq_nodup acc a h)

theorem setFromArray_nodup (l : List String) : (setFromArray l).Nodup :=
  foldl_insertUniq_nodup l [] List.nodup_nil

theorem foldl_insertUniq_of_nodup :
    ∀ (l acc : List String), (acc ++ l).Nodup → l.foldl insertUniq acc = acc ++ l := by
  intro l
  induction l with
  | nil => intro acc _; simp
  | cons a l ih =>
      intro acc h
      have hsplit := List.nodup_append.mp h
      have ha : a ∉ acc := fun hmem => hsplit.2.2 hmem (List.mem_cons_self a l)
      have hstep : insertUniq acc a = acc ++ [a] := by simp [insertUniq, ha]
      have hrest : ((acc ++ [a]) ++ l).Nodup := by simpa using h
      calc (a :: l).foldl insertUniq acc
          = l.foldl insertUniq (insertUniq acc a) := by simp [List.foldl_cons]
        _ = l.foldl insertUniq (acc ++ [a]) := by rw [hstep]
        _ = (acc ++ [a]) ++ l := ih (acc ++ [a]) hrest
        _ = acc ++ a :: l := by simp

theorem setFromArray_eq_self (l : List String) (h : l.Nodup) : setFromArray l = l := by
  simpa [setFromArray] using foldl_insertUniq_of_nodup l [] (by simpa)

/-! ### C5: video/image exclusivity -/

/-- C5: the video URL and the primary image media are never both non-null:
`handleMediaSuccess` with `isVideo = true` nulls both image slots, the
edit-source image and the dimensions while setting the video URL, and with
`isVideo = false` it nulls the video URL (whether or not the image decodes). -/
theorem video_image_exclusivity (load : Option (Nat × Nat)) (src : String) (p : PageState) :
    ((handleMediaSuccess load src true p).bgUrl1 = none
      ∧ (handleMediaSuccess load src true p).bgUrl2 = none
      ∧ (handleMediaSuccess load src true p).currentImage = none
      ∧ (handleMediaSuccess load src true p).imageDimensions = none
      ∧ (handleMediaSuccess load src true p).currentVideoUrl = some src)
    ∧ (handleMediaSuccess load src false p).currentVideoUrl = none := by
  refine ⟨⟨?_, ?_, ?_, ?_, ?_⟩, ?_⟩ <;>
    · cases load <;> simp [handleMediaSuccess, resetTransform]

/-! ### C9: undo never touches the history ledger -/

/-- C9: `handleUndo` leaves the history ledger (contents, hence size)
unchanged, and also leaves the banners, every busy flag, the capacity
warning, the token counters and the model selection unchanged; when it
acts (non-empty undo stack) the pan/zoom transform is reset to the
identity. -/
theorem undo_preserves_history_ledger (p : PageState) :
    (handleUndo p).history = p.history
    ∧ (handleUndo p).error = p.error
    ∧ (handleUndo p).conversationalResponse = p.conversationalResponse
    ∧ isBusy (handleUndo p) = isBusy p
    ∧ (handleUndo p).isHistoryFullWarningVisible = p.isHistoryFullWarningVisible
    ∧ (handleUndo p).tokenLast = p.tokenLast
    ∧ (handleUndo p).tokenSession = p.tokenSession
    ∧ (handleUndo p).selectedModel = p.selectedModel
    ∧ (handleUndo p).transformScale = (if p.undoStack = [] then p.transformScale else 1)
    ∧ (handleUndo p).transformX = (if p.undoStack = [] then p.transformX else 0)
    ∧ (handleUndo p).transformY = (if p.undoStack = [] then p.transformY else 0) := by
  cases h : p.undoStack.getLast? with
  | none =>
      have hnil : p.undoStack = [] := List.getLast?_eq_none_iff.mp h
      simp [handleUndo, h, hnil]
  | some prev =>
      have hne : p.undoStack ≠ [] := by
        intro hnil
        rw [hnil] at h
        simp at h
      simp [handleUndo, h, restoreState, resetTransform, isBusy, hne]

/-! ### C4: bounded undo stack with FIFO eviction -/

theorem takeRight_nil (n : Nat) : takeRight ([] : List α) n = [] := by
  simp [takeRight]

theorem takeRight_append_singleton (l : List α) (a : α) (n : Nat) (hn : 1 ≤ n) :
    takeRight (l ++ [a]) n = takeRight l (n - 1) ++ [a] := by
  unfold takeRight
  have hle : l.length + 1 - n ≤ l.length := by omega
  rw [List.length_append]
  simp only [List.length_singleton]
  rw [List.drop_append_of_le_length hle]
  have : l.length + 1 - n = l.length - (n - 1) := by omega
  rw [this]

theorem takeRight_takeRight (l : List α) (a b : Nat) (hab : a ≤ b) :
    takeRight (takeRight l b) a = takeRight l a := by
  unfold takeRight
  rw [List.drop_drop, List.length_drop]
  congr 1
  omega

/-- The state after `n` checkpointed mutations: each step records an undo
checkpoint (`saveStateForUndo`) and then applies the step's mutation. -/
def chain (f : Nat → PageState → PageState) (p0 : PageState) : Nat → PageState
  | 0 => p0
  | n + 1 => f n (saveStateForUndo (chain f p0 n))

/-- The checkpoints pushed by the first `n` steps of `chain`, oldest
first. -/
def chainCaptures (f : Nat → PageState → PageState) (p0 : PageState) (n : Nat) :
    List VoxState :=
  (List.range n).map (fun i => captureState (chain f p0 i))

theorem chain_undoStack (f : Nat → PageState → PageState) (p0 : PageState)
    (hstacks : ∀ i q, (f i q).undoStack = q.undoStack ∧ (f i q).redoStack = q.redoStack)
    (hempty : p0.undoStack = []) :
    ∀ m, (chain f p0 m).undoStack = takeRight (chainCaptures f p0 m) MAX_UNDO_STACK_SIZE := by
  intro m
  induction m with
  | zero => simp [chain, chainCaptures, hempty, takeRight_nil]
  | succ m ih =>
      have hcaps : chainCaptures f p0 (m + 1)
          = chainCaptures f p0 m ++ [captureState (chain f p0 m)] := by
        simp [chainCaptures, List.range_succ]
      calc (chain f p0 (m + 1)).undoStack
          = (saveStateForUndo (chain f p0 m)).undoStack :=
            (hstacks m (saveStateForUndo (chain f p0 m))).1
        _ = takeRight (chain f p0 m).undoStack (MAX_UNDO_STACK_SIZE - 1)
              ++ [captureState (chain f p0 m)] := rfl
        _ = takeRight (takeRight (chainCaptures f p0 m) MAX_UNDO_STACK_SIZE)
              (MAX_UNDO_STACK_SIZE - 1) ++ [captureState (chain f p0 m)] := by rw [ih]
        _ = takeRight (chainCaptures f p0 m) (MAX_UNDO_STACK_SIZE - 1)
              ++ [captureState (chain f p0 m)] := by
            rw [takeRight_takeRight _ _ _ (by simp [MAX_UNDO_STACK_SIZE])]
        _ = takeRight (chainCaptures f p0 (m + 1)) MAX_UNDO_STACK_SIZE := by
            rw [hcaps, takeRight_append_singleton _ _ _ (by simp [MAX_UNDO_STACK_SIZE])]

theorem chainCaptures_length (f : Nat → PageState → PageState) (p0 : PageState) (n : Nat) :
    (chainCaptures f p0 n).length = n := by
  simp [chainCaptures]

theorem chain_redoStack (f : Nat → PageState → PageState) (p0 : PageState)
    (hstacks : ∀ i q, (f i q).undoStack = q.undoStack ∧ (f i q).redoStack = q.redoStack)
    (m : Nat) : (chain f p0 (m + 1)).redoStack = [] := by
  calc (chain f p0 (m + 1)).redoStack
      = (saveStateForUndo (chain f p0 m)).redoStack :=
        (hstacks m (saveStateForUndo (chain f p0 m))).2
    _ = [] := rfl

/-- C4: starting from an empty undo stack, pushing
`MAX_UNDO_STACK_SIZE + k` checkpoints (interleaved with arbitrary
stack-preserving mutations) leaves exactly `MAX_UNDO_STACK_SIZE` (20)
entries in the undo stack, namely the pushed snapshots with the oldest `k`
discarded in FIFO order; every checkpoint push leaves the redo stack
empty. -/
theorem undo_stack_bound (f : Nat → PageState → PageState) (p0 : PageState) (k : Nat)
    (hstacks : ∀ i q, (f i q).undoStack = q.undoStack ∧ (f i q).redoStack = q.redoStack)
    (hempty : p0.undoStack = []) :
    (chain f p0 (MAX_UNDO_STACK_SIZE + k)).undoStack.length = MAX_UNDO_STACK_SIZE
    ∧ (chain f p0 (MAX_UNDO_STACK_SIZE + k)).undoStack
        = (chainCaptures f p0 (MAX_UNDO_STACK_SIZE + k)).drop k
    ∧ (∀ q : PageState, (saveStateForUndo q).redoStack = [])
    ∧ (chain f p0 (MAX_UNDO_STACK_SIZE + k)).redoStack = [] := by
  have hstack := chain_undoStack f p0 hstacks hempty (MAX_UNDO_STACK_SIZE + k)
  have hdrop : takeRight (chainCaptures f p0 (MAX_UNDO_STACK_SIZE + k)) MAX_UNDO_STACK_SIZE
      = (chainCaptures f p0 (MAX_UNDO_STACK_SIZE + k)).drop k := by
    unfold takeRight
    rw [chainCaptures_length]
    congr 1
    omega
  refine ⟨?_, by rw [hstack, hdrop], fun q => rfl, ?_⟩
  · rw [hstack, hdrop, List.length_drop, chainCaptures_length]
    omega
  · have : MAX_UNDO_STACK_SIZE + k = (MAX_UNDO_STACK_SIZE - 1 + k) + 1 := by
      simp only [MAX_UNDO_STACK_SIZE]
      omega
    rw [this]
    exact chain_redoStack f p0 hstacks _

/-- Witness for `undo_stack_bound` at a concrete mutation sequence and
`k = 0`. -/
theorem undo_stack_bound_witness :
    (chain (fun _ q => { q with prompt := "step" }) initialPage (MAX_UNDO_STACK_SIZE + 0)).undoStack.length = MAX_UNDO_STACK_SIZE
    ∧ (chain (fun _ q => { q with prompt := "step" }) initialPage (MAX_UNDO_STACK_SIZE + 0)).undoStack
        = (chainCaptures (fun _ q => { q with prompt := "step" }) initialPage (MAX_UNDO_STACK_SIZE + 0)).drop 0
    ∧ (∀ q : PageState, (saveStateForUndo q).redoStack = [])
    ∧ (chain (fun _ q => { q with prompt := "step" }) initialPage (MAX_UNDO_STACK_SIZE + 0)).redoStack = [] :=
  undo_stack_bound (fun _ q => { q with prompt := "step" }) initialPage 0
    (fun _ _ => ⟨rfl, rfl⟩) rfl

/-! ### C3: undo/redo round trip -/

/-- `undo()` called `k` times. -/
def undoN : Nat → PageState → PageState
  | 0, p => p
  | k + 1, p => undoN k (handleUndo p)

/-- `redo()` called `k` times. -/
def redoN : Nat → PageState → PageState
  | 0, p => p
  | k + 1, p => handleRedo (redoN k p)

/-- Observational equivalence for the round-trip property: equal creation
state (the `captureState` projection) and equal undo and redo stacks. -/
def Rel (q p : PageState) : Prop :=
  captureState q = captureState p ∧ q.undoStack = p.undoStack ∧ q.redoStack = p.redoStack

theorem rel_refl (p : PageState) : Rel p p := ⟨rfl, rfl, rfl⟩

theorem rel_trans {a b c : PageState} (h1 : Rel a b) (h2 : Rel b c) : Rel a c :=
  ⟨h1.1.trans h2.1, h1.2.1.trans h2.2.1, h1.2.2.trans h2.2.2⟩

theorem captureState_restoreState (s : VoxState) (p : PageState) :
    captureState (restoreState s p) = { s with activeStyles := setFromArray s.activeStyles } :=
  rfl

theorem restoreState_undoStack (s : VoxState) (p : PageState) :
    (restoreState s p).undoStack = p.undoStack := rfl

theorem restoreState_redoStack (s : VoxState) (p : PageState) :
    (restoreState s p).redoStack = p.redoStack := rfl

theorem restoreState_activeStyles (s : VoxState) (p : PageState) :
    (restoreState s p).activeStyles = setFromArray s.activeStyles := rfl

theorem handleUndo_of_empty (p : PageState) (h : p.undoStack = []) : handleUndo p = p := by
  simp [handleUndo, h]

theorem handleRedo_of_empty (p : PageState) (h : p.redoStack = []) : handleRedo p = p := by
  simp [handleRedo, h]

theorem handleUndo_spec (p : PageState) (prev : VoxState)
    (h : p.undoStack.getLast? = some prev) :
    handleUndo p
      = restoreState prev
          { p with undoStack := p.undoStack.dropLast,
                   redoStack := p.redoStack ++ [captureState p] } := by
  simp [handleUndo, h]

theorem handleRedo_spec (p : PageState) (next : VoxState)
    (h : p.redoStack.getLast? = some next) :
    handleRedo p
      = restoreState next
          { p with redoStack := p.redoStack.dropLast,
                   undoStack := p.undoStack ++ [captureState p] } := by
  simp [handleRedo, h]

theorem getLast_append_single (l : List α) (a : α) : (l ++ [a]).getLast? = some a := by
  rw [List.getLast?_append_of_ne_nil _ (by simp)]
  rfl

theorem dropLast_append_single (l : List α) (a : α) : (l ++ [a]).dropLast = l := by
  simp

theorem mem_of_getLast_eq {l : List α} {a : α} (h : l.getLast? = some a) : a ∈ l := by
  have hid := List.dropLast_append_getLast? a (by simpa using h)
  rw [← hid]
  simp

/-- One undo followed by one redo cancels out on the creation state and
both stacks, provided the popped snapshot and the live style set are
duplicate-free (they always are: JS sets cannot hold duplicates). -/
theorem redo_undo_cancel (p : PageState)
    (hne : p.undoStack ≠ [])
    (hstack : ∀ s ∈ p.undoStack, s.activeStyles.Nodup)
    (hlive : p.activeStyles.Nodup) :
    Rel (handleRedo (handleUndo p)) p := by
  obtain ⟨prev, hp⟩ : ∃ prev, p.undoStack.getLast? = some prev := by
    cases hq : p.undoStack.getLast? with
    | none => exact absurd (List.getLast?_eq_none_iff.mp hq) hne
    | some prev => exact ⟨prev, rfl⟩
  have hprevmem : prev ∈ p.undoStack := mem_of_getLast_eq hp
  have hprevnodup : prev.activeStyles.Nodup := hstack prev hprevmem
  have hq1 := handleUndo_spec p prev hp
  set pMid : PageState :=
    { p with undoStack := p.undoStack.dropLast,
             redoStack := p.redoStack ++ [captureState p] } with hpMid
  have hq1redo : (handleUndo p).redoStack = p.redoStack ++ [captureState p] := by
    rw [hq1]; rfl
  have hlast : (handleUndo p).redoStack.getLast? = some (captureState p) := by
    rw [hq1redo]; exact getLast_append_single _ _
  have hq2 := handleRedo_spec (handleUndo p) (captureState p) hlast
  have hcapq1 : captureState (handleUndo p)
      = { prev with activeStyles := setFromArray prev.activeStyles } := by
    rw [hq1]; rfl
  have hcapq1eq : captureState (handleUndo p) = prev := by
    rw [hcapq1, setFromArray_eq_self prev.activeStyles hprevnodup]
  refine ⟨?_, ?_, ?_⟩
  · rw [hq2, captureState_restoreState]
    simp [captureState, setFromArray_eq_self _ hlive]
  · rw [hq2, restoreState_undoStack]
    show (handleUndo p).undoStack ++ [captureState (handleUndo p)] = p.undoStack
    rw [hcapq1eq, hq1, restoreState_undoStack]
    show p.undoStack.dropLast ++ [prev] = p.undoStack
    exact List.dropLast_append_getLast? prev (by simpa using hp)
  · rw [hq2, restoreState_redoStack]
    show (handleUndo p).redoStack.dropLast = p.redoStack
    rw [hq1redo, dropLast_append_single]

/-- `handleUndo` respects the observational equivalence. -/
theorem handleUndo_rel {q p : PageState} (h : Rel q p) : Rel (handleUndo q) (handleUndo p) := by
  obtain ⟨hcap, hundo, hredo⟩ := h
  cases hp : p.undoStack.getLast? with
  | none =>
      have hq : q.undoStack.getLast? = none := by rw [hundo, hp]
      rw [handleUndo_of_empty q (List.getLast?_eq_none_iff.mp hq),
          handleUndo_of_empty p (List.getLast?_eq_none_iff.mp hp)]
      exact ⟨hcap, hundo, hredo⟩
  | some prev =>
      have hq : q.undoStack.getLast? = some prev := by rw [hundo, hp]
      rw [handleUndo_spec q prev hq, handleUndo_spec p prev hp]
      refine ⟨by rw [captureState_restoreState, captureState_restoreState], ?_, ?_⟩
      · rw [restoreState_undoStack, restoreState_undoStack]
        show q.undoStack.dropLast = p.undoStack.dropLast
        rw [hundo]
      · rw [restoreState_redoStack, restoreState_redoStack]
        show q.redoStack ++ [captureState q] = p.redoStack ++ [captureState p]
        rw [hredo, hcap]

/-- `handleRedo` respects the observational equivalence. -/
theorem handleRedo_rel {q p : PageState} (h : Rel q p) : Rel (handleRedo q) (handleRedo p) := by
  obtain ⟨hcap, hundo, hredo⟩ := h
  cases hp : p.redoStack.getLast? with
  | none =>
      have hq : q.redoStack.getLast? = none := by rw [hredo, hp]
      rw [handleRedo_of_empty q (List.getLast?_eq_none_iff.mp hq),
          handleRedo_of_empty p (List.getLast?_eq_none_iff.mp hp)]
      exact ⟨hcap, hundo, hredo⟩
  | some next =>
      have hq : q.redoStack.getLast? = some next := by rw [hredo, hp]
      rw [handleRedo_spec q next hq, handleRedo_spec p next hp]
      refine ⟨by rw [captureState_restoreState, captureState_restoreState], ?_, ?_⟩
      · rw [restoreState_undoStack, restoreState_undoStack]
        show q.undoStack ++ [captureState q] = p.undoStack ++ [captureState p]
        rw [hundo, hcap]
      · rw [restoreState_redoStack, restoreState_redoStack]
        show q.redoStack.dropLast = p.redoStack.dropLast
        rw [hredo]

theorem handleUndo_undoStack_of_ne (p : PageState) (hne : p.undoStack ≠ []) :
    (handleUndo p).undoStack = p.undoStack.dropLast := by
  obtain ⟨prev, hp⟩ : ∃ prev, p.undoStack.getLast? = some prev := by
    cases hq : p.undoStack.getLast? with
    | none => exact absurd (List.getLast?_eq_none_iff.mp hq) hne
    | some prev => exact ⟨prev, rfl⟩
  rw [handleUndo_spec p prev hp, restoreState_undoStack]

theorem handleUndo_styles_nodup (p : PageState)
    (hlive : p.activeStyles.Nodup) :
    (handleUndo p).activeStyles.Nodup := by
  cases hp : p.undoStack.getLast? with
  | none =>
      rw [handleUndo_of_empty p (List.getLast?_eq_none_iff.mp hp)]
      exact hlive
  | some prev =>
      rw [handleUndo_spec p prev hp, restoreState_activeStyles]
      exact setFromArray_nodup _

theorem handleUndo_stack_nodup (p : PageState)
    (hstack : ∀ s ∈ p.undoStack, s.activeStyles.Nodup) :
    ∀ s ∈ (handleUndo p).undoStack, s.activeStyles.Nodup := by
  cases hp : p.undoStack.getLast? with
  | none =>
      rw [handleUndo_of_empty p (List.getLast?_eq_none_iff.mp hp)]
      exact hstack
  | some prev =>
      rw [handleUndo_spec p prev hp, restoreState_undoStack]
      intro s hs
      exact hstack s (List.dropLast_sublist p.undoStack |>.mem hs)

/-- Bounded round trip: as long as no undo hits an empty stack, `k` undos
followed by `k` redos are observationally the identity. -/
theorem round_trip_le :
    ∀ (k : Nat) (p : PageState),
      (∀ s ∈ p.undoStack, s.activeStyles.Nodup) →
      p.activeStyles.Nodup →
      k ≤ p.undoStack.length →
      Rel (redoN k (undoN k p)) p := by
  intro k
  induction k with
  | zero => intro p _ _ _; exact rel_refl p
  | succ k ih =>
      intro p hstack hlive hk
      have hne : p.undoStack ≠ [] := by
        intro hnil
        rw [hnil] at hk
        simp at hk
      have hk1 : k ≤ (handleUndo p).undoStack.length := by
        rw [handleUndo_undoStack_of_ne p hne, List.length_dropLast]
        omega
      have ihrel : Rel (redoN k (undoN k (handleUndo p))) (handleUndo p) :=
        ih (handleUndo p) (handleUndo_stack_nodup p hstack)
          (handleUndo_styles_nodup p hlive) hk1
      have hstep : Rel (handleRedo (redoN k (undoN k (handleUndo p)))) (handleRedo (handleUndo p)) :=
        handleRedo_rel ihrel
      have hcancel : Rel (handleRedo (handleUndo p)) p := redo_undo_cancel p hne hstack hlive
      exact rel_trans hstep hcancel

theorem undoN_fixed (n : Nat) (p : PageState) (h : handleUndo p = p) : undoN n p = p := by
  induction n with
  | zero => rfl
  | succ n ih => simp [undoN, h, ih]

theorem redoN_fixed (n : Nat) (p : PageState) (h : handleRedo p = p) : redoN n p = p := by
  induction n with
  | zero => rfl
  | succ n ih => simp [redoN, ih, h]

theorem undoN_add (a b : Nat) (p : PageState) : undoN (a + b) p = undoN a (undoN b p) := by
  induction b generalizing p with
  | zero => rfl
  | succ b ih => simpa [undoN, Nat.add_succ] using ih (handleUndo p)

theorem redoN_add (a b : Nat) (p : PageState) : redoN (a + b) p = redoN a (redoN b p) := by
  induction a with
  | zero => rw [Nat.zero_add]; rfl
  | succ a ih => simp [redoN, Nat.succ_add, ih]

theorem undoN_length (j : Nat) :
    ∀ p : PageState, j ≤ p.undoStack.length →
      (undoN j p).undoStack.length = p.undoStack.length - j := by
  induction j with
  | zero => intro p _; simp [undoN]
  | succ j ih =>
      intro p hj
      have hne : p.undoStack ≠ [] := by
        intro hnil
        rw [hnil] at hj
        simp at hj
      have hstep : (handleUndo p).undoStack.length = p.undoStack.length - 1 := by
        rw [handleUndo_undoStack_of_ne p hne, List.length_dropLast]
      have hj1 : j ≤ (handleUndo p).undoStack.length := by omega
      calc (undoN (j + 1) p).undoStack.length
          = (undoN j (handleUndo p)).undoStack.length := rfl
        _ = (handleUndo p).undoStack.length - j := ih (handleUndo p) hj1
        _ = p.undoStack.length - (j + 1) := by omega

/-- Unbounded round trip: with an empty redo stack, `k` undos followed by
`k` redos are observationally the identity for every `k` (surplus undos
and redos are no-ops). -/
theorem round_trip (k : Nat) (p : PageState)
    (hstack : ∀ s ∈ p.undoStack, s.activeStyles.Nodup)
    (hlive : p.activeStyles.Nodup)
    (hredo : p.redoStack = []) :
    Rel (redoN k (undoN k p)) p := by
  by_cases hk : k ≤ p.undoStack.length
  · exact round_trip_le k p hstack hlive hk
  · set m := p.undoStack.length with hm
    have hkm : k = (k - m) + m := by omega
    have hQstack : (undoN m p).undoStack.length = 0 := by
      rw [undoN_length m p (le_refl m)]
      omega
    have hQnil : (undoN m p).undoStack = [] := List.length_eq_zero.mp hQstack
    have hQfix : undoN (k - m) (undoN m p) = undoN m p :=
      undoN_fixed (k - m) (undoN m p) (handleUndo_of_empty _ hQnil)
    have hundoAll : undoN k p = undoN m p := by
      rw [hkm, undoN_add, hQfix]
    have hX : Rel (redoN m (undoN m p)) p :=
      round_trip_le m p hstack hlive (le_refl m)
    have hXredo : (redoN m (undoN m p)).redoStack = [] := by
      rw [hX.2.2, hredo]
    have hredoAll : redoN k (undoN m p) = redoN m (undoN m p) := by
      rw [hkm, redoN_add]
      exact redoN_fixed (k - m) _ (handleRedo_of_empty _ hXredo)
    rw [hundoAll, hredoAll]
    exact hX

theorem chain_live_nodup (f : Nat → PageState → PageState) (p0 : PageState)
    (hstyles : ∀ i q, q.activeStyles.Nodup → (f i q).activeStyles.Nodup)
    (h0 : p0.activeStyles.Nodup) :
    ∀ m, (chain f p0 m).activeStyles.Nodup := by
  intro m
  induction m with
  | zero => exact h0
  | succ m ih => exact hstyles m _ ih

theorem takeRight_sublist (l : List α) (n : Nat) : (takeRight l n).Sublist l :=
  List.drop_sublist _ l

theorem chain_stack_nodup (f : Nat → PageState → PageState) (p0 : PageState)
    (hstacks : ∀ i q, (f i q).undoStack = q.undoStack ∧ (f i q).redoStack = q.redoStack)
    (hstyles : ∀ i q, q.activeStyles.Nodup → (f i q).activeStyles.Nodup)
    (h0 : p0.activeStyles.Nodup)
    (h0stack : ∀ s ∈ p0.undoStack, s.activeStyles.Nodup) :
    ∀ m, ∀ s ∈ (chain f p0 m).undoStack, s.activeStyles.Nodup := by
  intro m
  induction m with
  | zero => exact h0stack
  | succ m ih =>
      intro s hs
      have hs1 : s ∈ (f m (saveStateForUndo (chain f p0 m))).undoStack := hs
      rw [(hstacks m (saveStateForUndo (chain f p0 m))).1] at hs1
      have hs2 : s ∈ takeRight (chain f p0 m).undoStack (MAX_UNDO_STACK_SIZE - 1)
          ++ [captureState (chain f p0 m)] := hs1
      rcases List.mem_append.mp hs2 with hmem | hmem
      · exact ih s ((takeRight_sublist _ _).mem hmem)
      · have : s = captureState (chain f p0 m) := by simpa using hmem
        rw [this]
        exact chain_live_nodup f p0 hstyles h0 m

/-- C3: for any starting state and any sequence of `N` checkpointed
stack-preserving mutations, calling `undo` `N` times and then `redo` `N`
times restores the creation state to deep equality with the state before
the undos, with the undo and redo stacks returned exactly to their
pre-round-trip contents (hence sizes); moreover `undo` on an empty undo
stack and `redo` on an empty redo stack are no-ops. -/
theorem undo_redo_round_trip (f : Nat → PageState → PageState) (p0 : PageState) (N : Nat)
    (hstacks : ∀ i q, (f i q).undoStack = q.undoStack ∧ (f i q).redoStack = q.redoStack)
    (hstyles : ∀ i q, q.activeStyles.Nodup → (f i q).activeStyles.Nodup)
    (h0 : p0.activeStyles.Nodup)
    (h0stack : ∀ s ∈ p0.undoStack, s.activeStyles.Nodup)
    (hN : 1 ≤ N) :
    (captureState (redoN N (undoN N (chain f p0 N))) = captureState (chain f p0 N)
      ∧ (redoN N (undoN N (chain f p0 N))).undoStack = (chain f p0 N).undoStack
      ∧ (redoN N (undoN N (chain f p0 N))).redoStack = (chain f p0 N).redoStack)
    ∧ (∀ q : PageState, q.undoStack = [] → handleUndo q = q)
    ∧ (∀ q : PageState, q.redoStack = [] → handleRedo q = q) := by
  refine ⟨?_, handleUndo_of_empty, handleRedo_of_empty⟩
  have hredoN : (chain f p0 N).redoStack = [] := by
    obtain ⟨m, rfl⟩ : ∃ m, N = m + 1 := ⟨N - 1, by omega⟩
    exact chain_redoStack f p0 hstacks m
  exact round_trip N (chain f p0 N)
    (chain_stack_nodup f p0 hstacks hstyles h0 h0stack N)
    (chain_live_nodup f p0 hstyles h0 N) hredoN

/-- Witness for `undo_redo_round_trip` at a concrete mutation and
`N = 1`. -/
theorem undo_redo_round_trip_witness :
    (captureState (redoN 1 (undoN 1 (chain (fun _ q => { q with prompt := "edited" }) initialPage 1)))
        = captureState (chain (fun _ q => { q with prompt := "edited" }) initialPage 1)
      ∧ (redoN 1 (undoN 1 (chain (fun _ q => { q with prompt := "edited" }) initialPage 1))).undoStack
          = (chain (fun _ q => { q with prompt := "edited" }) initialPage 1).undoStack
      ∧ (redoN 1 (undoN 1 (chain (fun _ q => { q with prompt := "edited" }) initialPage 1))).redoStack
          = (chain (fun _ q => { q with prompt := "edited" }) initialPage 1).redoStack)
    ∧ (∀ q : PageState, q.undoStack = [] → handleUndo q = q)
    ∧ (∀ q : PageState, q.redoStack = [] → handleRedo q = q) :=
  undo_redo_round_trip (fun _ q => { q with prompt := "edited" }) initialPage 1
    (fun _ _ => ⟨rfl, rfl⟩) (fun _ _ h => h) List.nodup_nil
    (fun s hs => absurd hs (List.not_mem_nil s)) (le_refl 1)

/-! ### Frame lemmas for the handler building blocks -/

theorem saveStateForUndo_history (p : PageState) :
    (saveStateForUndo p).history = p.history := rfl

theorem saveStateForUndo_prompt (p : PageState) :
    (saveStateForUndo p).prompt = p.prompt := rfl

theorem updateTokenUsage_history (c : Nat) (p : PageState) :
    (updateTokenUsage c p).history = p.history := rfl

theorem updateTokenUsage_undoStack (c : Nat) (p : PageState) :
    (updateTokenUsage c p).undoStack = p.undoStack := rfl

theorem updateTokenUsage_redoStack (c : Nat) (p : PageState) :
    (updateTokenUsage c p).redoStack = p.redoStack := rfl

theorem classifyFailure_history (m : String) (p : PageState) :
    (classifyFailure m p).history = p.history := by
  unfold classifyFailure
  split <;> rfl

theorem classifyFailure_undoStack (m : String) (p : PageState) :
    (classifyFailure m p).undoStack = p.undoStack := by
  unfold classifyFailure
  split <;> rfl

theorem classifyFailure_redoStack (m : String) (p : PageState) :
    (classifyFailure m p).redoStack = p.redoStack := by
  unfold classifyFailure
  split <;> rfl

theorem handleMediaSuccess_history (load : Option (Nat × Nat)) (src : String) (v : Bool)
    (p : PageState) : (handleMediaSuccess load src v p).history = p.history := by
  unfold handleMediaSuccess resetTransform
  cases v <;> cases load <;> simp [apply_ite PageState.history]

theorem handleMediaSuccess_undoStack (load : Option (Nat × Nat)) (src : String) (v : Bool)
    (p : PageState) : (handleMediaSuccess load src v p).undoStack = p.undoStack := by
  unfold handleMediaSuccess resetTransform
  cases v <;> cases load <;> simp [apply_ite PageState.undoStack]

theorem handleMediaSuccess_redoStack (load : Option (Nat × Nat)) (src : String) (v : Bool)
    (p : PageState) : (handleMediaSuccess load src v p).redoStack = p.redoStack := by
  unfold handleMediaSuccess resetTransform
  cases v <;> cases load <;> simp [apply_ite PageState.redoStack]

theorem handleMediaSuccess_conversationalResponse (load : Option (Nat × Nat)) (src : String)
    (v : Bool) (p : PageState) :
    (handleMediaSuccess load src v p).conversationalResponse = p.conversationalResponse := by
  unfold handleMediaSuccess resetTransform
  cases v <;> cases load <;> simp [apply_ite PageState.conversationalResponse]

theorem createAndStoreHistoryItem_undoStack (i : String) (n : Nat) (t : List ImageInfo)
    (u m : String) (num : Nat) (r mo : String) (v : Option String) (sd : Option Int)
    (p : PageState) :
    (createAndStoreHistoryItem i n t u m num r mo v sd p).undoStack = p.undoStack := by
  unfold createAndStoreHistoryItem
  split <;> rfl

theorem createAndStoreHistoryItem_redoStack (i : String) (n : Nat) (t : List ImageInfo)
    (u m : String) (num : Nat) (r mo : String) (v : Option String) (sd : Option Int)
    (p : PageState) :
    (createAndStoreHistoryItem i n t u m num r mo v sd p).redoStack = p.redoStack := by
  unfold createAndStoreHistoryItem
  split <;> rfl

theorem createAndStoreHistoryItem_conversationalResponse (i : String) (n : Nat)
    (t : List ImageInfo) (u m : String) (num : Nat) (r mo : String) (v : Option String)
    (sd : Option Int) (p : PageState) :
    (createAndStoreHistoryItem i n t u m num r mo v sd p).conversationalResponse
      = p.conversationalResponse := by
  unfold createAndStoreHistoryItem
  split <;> rfl

theorem createAndStoreHistoryItem_error (i : String) (n : Nat) (t : List ImageInfo)
    (u m : String) (num : Nat) (r mo : String) (v : Option String) (sd : Option Int)
    (p : PageState) :
    (createAndStoreHistoryItem i n t u m num r mo v sd p).error = p.error := by
  unfold createAndStoreHistoryItem
  split <;> rfl

/-! ### C1: the history-capacity gate -/

/-- The seven generation-style operations that run `preGenerationCheck`
before calling GenerationService. -/
def gatedOps : List GenOp :=
  [GenOp.generateOrEdit, GenOp.generateVideo, GenOp.combine, GenOp.reframe,
   GenOp.variations, GenOp.changeViewpoint, GenOp.inpaint]

/-- The operation-specific preconditions that each handler checks before
(and besides) the history-capacity gate. -/
def otherPre (env : Env) (op : GenOp) (p : PageState) : Prop :=
  match op with
  | GenOp.generateOrEdit => jsTrim p.prompt ≠ ""
  | GenOp.generateVideo => jsTrim p.prompt ≠ ""
  | GenOp.combine => 2 ≤ p.selectedIndices.length ∧ jsTrim p.prompt ≠ ""
  | GenOp.upscale => True
  | GenOp.reframe => jsStrTruthy (activeImageSrc p) = true
  | GenOp.variations => jsStrTruthy (activeImageSrc p) = true
  | GenOp.changeViewpoint => jsStrTruthy (activeImageSrc p) = true
  | GenOp.inpaint =>
      jsStrTruthy (activeImageSrc p) = true ∧ env.canvasPresent = true
        ∧ jsTrim p.inpaintingPrompt ≠ ""
  | GenOp.surpriseMe => True

instance (env : Env) (op : GenOp) (p : PageState) : Decidable (otherPre env op p) := by
  unfold otherPre
  cases op <;> infer_instance

/-- A fixed committed generation used to populate concrete ledgers. -/
def sampleItem : HistoryItem where
  id := "h1"
  prompt := "a red balloon"
  settingsModel := "vxdl-1-fused"
  settingsNumberOfImages := 1
  settingsAspectRatio := "1:1"
  images := [{ src := "data:image/png;base64,AAA", upscaledTo := none, isRefined := false }]
  timestamp := 0
  generationMode := "text-to-image"
  inputImage := none
  voxSettings :=
    { negativePrompt := "", activeStyles := [], detailIntensity := 3, aspectRatio := "auto" }
  videoSrc := none
  seed := none

/-- A page whose ledger is at capacity, with an active image and active
history record. -/
def fullHistoryPage : PageState :=
  { initialPage with
    history := List.replicate 10 sampleItem
    currentImage := some { base64 := "data:image/png;base64,AAA", mimeType := "image/png" }
    activeHistoryItemId := some "h1" }

/-- A concrete environment where every service call succeeds. -/
def envOkAll : Env where
  genResult := Except.ok (["data:image/png;base64,GEN"], 7)
  combineResult := Except.ok ["data:image/png;base64,CMB"]
  upscaleResult := Except.ok "data:image/png;base64,UPS"
  videoResult := Except.ok "blob:video"
  surpriseResult := Except.ok "a surreal whale made of clouds"
  variationsResult := Except.ok ["data:image/png;base64,VAR"]
  reframeResult := Except.ok ["data:image/png;base64,RFR"]
  viewpointResult := Except.ok "data:image/png;base64,VWP"
  inpaintResult := Except.ok ["data:image/png;base64,INP"]
  analyzeSceneResult := Except.ok "add a lighthouse"
  suggestNegResult := Except.ok "blurry, low quality"
  styleResult := Except.ok "cinematic, film grain"
  load := some (1024, 768)
  newId := "2024-id"
  now := 1700000000000
  winW := 1600
  winH := 900
  canvasPresent := true

/-- C1 counterexample: with the ledger at `MAX_HISTORY_ITEMS`, invoking
upscale performs a GenerationService call and raises no capacity warning,
and so does surprise-me — refuting the claim that every one of the nine
generation-style operations performs zero calls and raises the warning. -/
theorem upscale_ignores_history_gate :
    fullHistoryPage.history.length = MAX_HISTORY_ITEMS
    ∧ (handleUpscale envOkAll "2x" fullHistoryPage).snd = [Ev.checkpoint, Ev.svcCall]
    ∧ (handleUpscale envOkAll "2x" fullHistoryPage).fst.isHistoryFullWarningVisible = false
    ∧ (handleSurpriseMe envOkAll fullHistoryPage).snd = [Ev.svcCall]
    ∧ (handleSurpriseMe envOkAll fullHistoryPage).fst.isHistoryFullWarningVisible = false := by
  refine ⟨rfl, rfl, rfl, rfl, rfl⟩

theorem length_filter_not_add_countP {α : Type} (l : List α) (f : α → Bool) :
    (l.filter (fun it => !(f it))).length + l.countP f = l.length := by
  induction l with
  | nil => rfl
  | cons a l ih =>
      rw [List.filter_cons, List.countP_cons]
      by_cases h : f a = true
      · simp [h]; omega
      · simp at h; simp [h]; omega

theorem deleteHistoryItems_single_length (l : List HistoryItem) (d : String) :
    (deleteHistoryItems l [d]).length + l.countP (fun it => it.id = d) = l.length := by
  have hfun : (fun it : HistoryItem => decide (it.id = d)) = (fun it => [d].contains it.id) :=
    funext fun it => by by_cases h : it.id = d <;> simp [h]
  unfold deleteHistoryItems
  rw [hfun]
  exact length_filter_not_add_countP l (fun it => [d].contains it.id)

theorem handleGenerateOrEdit_ok (env : Env) (p : PageState) (img : String)
    (rest : List String) (sd : Int)
    (hprompt : jsTrim p.prompt ≠ "")
    (hnotfull : ¬(MAX_HISTORY_ITEMS ≤ p.history.length))
    (hgen : env.genResult = Except.ok (img :: rest, sd)) :
    (handleGenerateOrEdit env p).snd = [Ev.checkpoint, Ev.svcCall]
    ∧ (handleGenerateOrEdit env p).fst.history.length = p.history.length + 1 := by
  constructor
  · simp [handleGenerateOrEdit, hprompt, hnotfull]
  · cases hc : p.currentImage with
    | none =>
        simp [handleGenerateOrEdit, hprompt, hnotfull, hgen, hc, saveStateForUndo,
          createAndStoreHistoryItem, addToHistory, updateTokenUsage,
          handleMediaSuccess_history]
    | some ci =>
        simp [handleGenerateOrEdit, hprompt, hnotfull, hgen, hc, saveStateForUndo,
          createAndStoreHistoryItem, addToHistory, updateTokenUsage,
          handleMediaSuccess_history]

/-- C1 (amended): of the nine generation-style operations, the seven that
append to the ledger (generate-or-edit, generate-video, combine, reframe,
variations, change-viewpoint, inpaint) perform zero GenerationService
calls and raise the capacity warning when invoked with their other
preconditions satisfied while the ledger is full, leaving the ledger
unchanged; upscale and surprise-me are not gated (see the counterexample).
After deleting one record from a full ledger, the next generation performs
its service call and the ledger size returns to `MAX_HISTORY_ITEMS`. -/
theorem history_full_gate_amended :
    (∀ (op : GenOp) (env : Env) (args : OpArgs) (p : PageState),
       op ∈ gatedOps → otherPre env op p → MAX_HISTORY_ITEMS ≤ p.history.length →
       (runOp op env args p).snd = []
       ∧ (runOp op env args p).fst.isHistoryFullWarningVisible = true
       ∧ (runOp op env args p).fst.history = p.history)
    ∧ (∀ (env : Env) (p : PageState) (d : String) (imgs : List String) (sd : Int),
       p.history.length = MAX_HISTORY_ITEMS →
       p.history.countP (fun it => it.id = d) = 1 →
       jsTrim p.prompt ≠ "" →
       env.genResult = Except.ok (imgs, sd) →
       imgs ≠ [] →
       Ev.svcCall ∈
         (handleGenerateOrEdit env { p with history := deleteHistoryItems p.history [d] }).snd
       ∧ (handleGenerateOrEdit env
            { p with history := deleteHistoryItems p.history [d] }).fst.history.length
           = MAX_HISTORY_ITEMS) := by
  constructor
  · intro op env args p hmem hpre hfull
    cases op with
    | generateOrEdit =>
        simp only [otherPre] at hpre
        simp [runOp, handleGenerateOrEdit, hpre, hfull]
    | generateVideo =>
        simp only [otherPre] at hpre
        simp [runOp, handleGenerateVideo, hpre, hfull]
    | combine =>
        simp only [otherPre] at hpre
        have h1 : ¬(p.selectedIndices.length < 2) := by omega
        simp [runOp, handleCombineImages, h1, hpre.2, hfull]
    | upscale => simp [gatedOps] at hmem
    | reframe =>
        simp only [otherPre] at hpre
        have hpre2 : jsStrTruthy (activeImageSrc { p with isReframePanelOpen := false }) = true :=
          hpre
        simp [runOp, handleReframe, hpre2, hfull]
    | variations =>
        simp only [otherPre] at hpre
        simp [runOp, handleGenerateVariations, hpre, hfull]
    | changeViewpoint =>
        simp only [otherPre] at hpre
        simp [runOp, handleChangeViewpoint, hpre, hfull]
    | inpaint =>
        simp only [otherPre] at hpre
        simp [runOp, handleApplyInpainting, hpre.1, hpre.2.1, hpre.2.2, hfull]
    | surpriseMe => simp [gatedOps] at hmem
  · intro env p d imgs sd hlen hcount hprompt hgen hne
    have hdel : (deleteHistoryItems p.history [d]).length + 1 = MAX_HISTORY_ITEMS := by
      have := deleteHistoryItems_single_length p.history d
      omega
    have hnotfull :
        ¬(MAX_HISTORY_ITEMS ≤ (deleteHistoryItems p.history [d]).length) := by
      simp only [MAX_HISTORY_ITEMS] at *
      omega
    obtain ⟨img, rest, rfl⟩ : ∃ img rest, imgs = img :: rest := by
      cases imgs with
      | nil => exact absurd rfl hne
      | cons a l => exact ⟨a, l, rfl⟩
    have hok := handleGenerateOrEdit_ok env
      { p with history := deleteHistoryItems p.history [d] } img rest sd hprompt hnotfull hgen
    refine ⟨by rw [hok.1]; simp, ?_⟩
    rw [hok.2]
    show (deleteHistoryItems p.history [d]).length + 1 = MAX_HISTORY_ITEMS
    exact hdel

/-- A ledger of ten records in which exactly one has id `hX`. -/
def witnessDeletePage : PageState :=
  { initialPage with
    prompt := "next creation"
    history := { sampleItem with id := "hX" } :: List.replicate 9 sampleItem }

/-- Witness for `history_full_gate_amended`: generate-or-edit on a full
ledger aborts with the warning, and after deleting one record it commits
and refills the ledger. -/
theorem history_full_gate_amended_witness :
    ((runOp GenOp.generateOrEdit envOkAll ⟨"2x", "1:1", "up"⟩
        { fullHistoryPage with prompt := "a cat" }).snd = []
     ∧ (runOp GenOp.generateOrEdit envOkAll ⟨"2x", "1:1", "up"⟩
          { fullHistoryPage with prompt := "a cat" }).fst.isHistoryFullWarningVisible = true
     ∧ (runOp GenOp.generateOrEdit envOkAll ⟨"2x", "1:1", "up"⟩
          { fullHistoryPage with prompt := "a cat" }).fst.history
         = ({ fullHistoryPage with prompt := "a cat" } : PageState).history)
    ∧ (Ev.svcCall ∈
        (handleGenerateOrEdit envOkAll
          { witnessDeletePage with
            history := deleteHistoryItems witnessDeletePage.history ["hX"] }).snd
       ∧ (handleGenerateOrEdit envOkAll
            { witnessDeletePage with
              history := deleteHistoryItems witnessDeletePage.history ["hX"] }).fst.history.length
           = MAX_HISTORY_ITEMS) :=
  ⟨history_full_gate_amended.1 GenOp.generateOrEdit envOkAll ⟨"2x", "1:1", "up"⟩
      { fullHistoryPage with prompt := "a cat" } (by decide) (by decide) (by decide),
   history_full_gate_amended.2 envOkAll witnessDeletePage "hX"
      ["data:image/png;base64,GEN"] 7 (by decide) (by decide) (by decide) rfl (by decide)⟩

/-! ### C2: the checkpoint protocol -/

/-- C2 counterexample: surprise-me is one of the nine generation-style
operations and mutates the prompt, yet it issues its GenerationService
call without ever pushing an undo checkpoint. -/
theorem surpriseMe_skips_checkpoint :
    (handleSurpriseMe envOkAll initialPage).snd = [Ev.svcCall]
    ∧ Ev.checkpoint ∉ (handleSurpriseMe envOkAll initialPage).snd
    ∧ (handleSurpriseMe envOkAll initialPage).fst.undoStack = []
    ∧ (handleSurpriseMe envOkAll initialPage).fst.prompt
        = "a surreal whale made of clouds" := by
  refine ⟨rfl, by decide, rfl, rfl⟩

/-- C2 (amended): eight of the nine generation-style operations (all but
surprise-me) record the undo checkpoint capturing the pre-operation state
before the GenerationService call is issued — whenever such a run emits
events at all, the trace is checkpoint-then-call and the resulting undo
stack ends with the capture of the pre-operation state (redo cleared);
surprise-me calls the service without a checkpoint, and the three
pure-analysis operations (scene analysis, negative-prompt suggestion,
style analysis) never push a checkpoint. -/
theorem checkpoint_protocol_amended :
    (∀ (op : GenOp) (env : Env) (args : OpArgs) (p : PageState), op ≠ GenOp.surpriseMe →
       (runOp op env args p).snd = []
       ∨ ((runOp op env args p).snd = [Ev.checkpoint, Ev.svcCall]
          ∧ (runOp op env args p).fst.undoStack
              = takeRight p.undoStack (MAX_UNDO_STACK_SIZE - 1) ++ [captureState p]
          ∧ (runOp op env args p).fst.redoStack = []))
    ∧ (∀ (env : Env) (p : PageState),
       (handleSurpriseMe env p).snd = [Ev.svcCall]
       ∧ (handleSurpriseMe env p).fst.undoStack = p.undoStack
       ∧ (handleSurpriseMe env p).fst.redoStack = p.redoStack)
    ∧ (∀ (env : Env) (p : PageState),
       Ev.checkpoint ∉ (handleAnalyzeScene env p).snd
       ∧ (handleAnalyzeScene env p).fst.undoStack = p.undoStack
       ∧ Ev.checkpoint ∉ (handleSuggestNegatives env p).snd
       ∧ (handleSuggestNegatives env p).fst.undoStack = p.undoStack
       ∧ Ev.checkpoint ∉ (handleApplyStyle env p).snd
       ∧ (handleApplyStyle env p).fst.undoStack = p.undoStack) := by
  refine ⟨?_, ?_, ?_⟩
  · intro op env args p hne
    cases op with
    | surpriseMe => exact absurd rfl hne
    | generateOrEdit =>
        by_cases h1 : jsTrim p.prompt = ""
        · left; simp [runOp, handleGenerateOrEdit, h1]
        · by_cases h2 : MAX_HISTORY_ITEMS ≤ p.history.length
          · left; simp [runOp, handleGenerateOrEdit, h1, h2]
          · right
            refine ⟨by simp [runOp, handleGenerateOrEdit, h1, h2], ?_, ?_⟩ <;>
              · cases hg : env.genResult with
                | error msg =>
                    simp [runOp, handleGenerateOrEdit, h1, h2, hg, saveStateForUndo,
                      captureState, classifyFailure_undoStack, classifyFailure_redoStack]
                | ok pr =>
                    cases hl : pr.fst <;>
                      simp [runOp, handleGenerateOrEdit, h1, h2, hg, hl, saveStateForUndo,
                        captureState, classifyFailure_undoStack, classifyFailure_redoStack,
                        handleMediaSuccess_undoStack, handleMediaSuccess_redoStack,
                        createAndStoreHistoryItem_undoStack, createAndStoreHistoryItem_redoStack,
                        updateTokenUsage, apply_ite PageState.undoStack,
                        apply_ite PageState.redoStack]
    | generateVideo =>
        by_cases h1 : jsTrim p.prompt = ""
        · left; simp [runOp, handleGenerateVideo, h1]
        · by_cases h2 : MAX_HISTORY_ITEMS ≤ p.history.length
          · left; simp [runOp, handleGenerateVideo, h1, h2]
          · right
            refine ⟨by simp [runOp, handleGenerateVideo, h1, h2], ?_, ?_⟩ <;>
              · cases hg : env.videoResult <;>
                  simp [runOp, handleGenerateVideo, h1, h2, hg, saveStateForUndo,
                    captureState, classifyFailure_undoStack, classifyFailure_redoStack,
                    handleMediaSuccess_undoStack, handleMediaSuccess_redoStack,
                    updateTokenUsage]
    | combine =>
        by_cases h1 : p.selectedIndices.length < 2 ∨ jsTrim p.prompt = ""
        · left
          rcases h1 with h1 | h1 <;> simp [runOp, handleCombineImages, h1]
        · push_neg at h1
          by_cases h2 : MAX_HISTORY_ITEMS ≤ p.history.length
          · left
            have h3 : ¬(p.selectedIndices.length < 2) := by omega
            simp [runOp, handleCombineImages, h3, h1.2, h2]
          · right
            have h3 : ¬(p.selectedIndices.length < 2) := by omega
            refine ⟨by simp [runOp, handleCombineImages, h3, h1.2, h2], ?_, ?_⟩ <;>
              · cases hg : env.combineResult with
                | error msg =>
                    simp [runOp, handleCombineImages, h3, h1.2, h2, hg, saveStateForUndo,
                      captureState, classifyFailure_undoStack, classifyFailure_redoStack]
                | ok l =>
                    cases l <;>
                      simp [runOp, handleCombineImages, h3, h1.2, h2, hg, saveStateForUndo,
                        captureState, classifyFailure_undoStack, classifyFailure_redoStack,
                        handleMediaSuccess_undoStack, handleMediaSuccess_redoStack,
                        createAndStoreHistoryItem_undoStack, createAndStoreHistoryItem_redoStack,
                        updateTokenUsage]
    | upscale =>
        by_cases h1 : !(jsStrTruthy (activeImageSrc { p with isUpscalePanelOpen := false }))
            || ({ p with isUpscalePanelOpen := false } : PageState).activeHistoryItemId.isNone
        · left; simp [runOp, handleUpscale, h1]
        · right
          refine ⟨by simp [runOp, handleUpscale, h1], ?_, ?_⟩ <;>
            · cases hg : env.upscaleResult <;>
                simp [runOp, handleUpscale, h1, hg, saveStateForUndo,
                  captureState, classifyFailure_undoStack, classifyFailure_redoStack,
                  handleMediaSuccess_undoStack, handleMediaSuccess_redoStack,
                  updateTokenUsage]
    | reframe =>
        by_cases h1 : jsStrTruthy (activeImageSrc { p with isReframePanelOpen := false }) = false
        · left; simp [runOp, handleReframe, h1]
        · have h1b : jsStrTruthy (activeImageSrc { p with isReframePanelOpen := false }) = true := by
            revert h1; cases jsStrTruthy (activeImageSrc { p with isReframePanelOpen := false }) <;> simp
          by_cases h2 : MAX_HISTORY_ITEMS ≤ p.history.length
          · left; simp [runOp, handleReframe, h1b, h2]
          · right
            refine ⟨by simp [runOp, handleReframe, h1b, h2], ?_, ?_⟩ <;>
              · cases hg : env.reframeResult with
                | error msg =>
                    simp [runOp, handleReframe, h1b, h2, hg, saveStateForUndo,
                      captureState, classifyFailure_undoStack, classifyFailure_redoStack]
                | ok l =>
                    cases l <;>
                      simp [runOp, handleReframe, h1b, h2, hg, saveStateForUndo,
                        captureState, classifyFailure_undoStack, classifyFailure_redoStack,
                        handleMediaSuccess_undoStack, handleMediaSuccess_redoStack,
                        createAndStoreHistoryItem_undoStack, createAndStoreHistoryItem_redoStack,
                        updateTokenUsage]
    | variations =>
        by_cases h1 : jsStrTruthy (activeImageSrc p) = false
        · left; simp [runOp, handleGenerateVariations, h1]
        · have h1b : jsStrTruthy (activeImageSrc p) = true := by
            revert h1; cases jsStrTruthy (activeImageSrc p) <;> simp
          by_cases h2 : MAX_HISTORY_ITEMS ≤ p.history.length
          · left; simp [runOp, handleGenerateVariations, h1b, h2]
          · right
            refine ⟨by simp [runOp, handleGenerateVariations, h1b, h2], ?_, ?_⟩ <;>
              · cases hg : env.variationsResult with
                | error msg =>
                    simp [runOp, handleGenerateVariations, h1b, h2, hg, saveStateForUndo,
                      captureState, classifyFailure_undoStack, classifyFailure_redoStack]
                | ok l =>
                    cases l <;>
                      simp [runOp, handleGenerateVariations, h1b, h2, hg, saveStateForUndo,
                        captureState, classifyFailure_undoStack, classifyFailure_redoStack,
                        handleMediaSuccess_undoStack, handleMediaSuccess_redoStack,
                        createAndStoreHistoryItem_undoStack, createAndStoreHistoryItem_redoStack,
                        updateTokenUsage]
    | changeViewpoint =>
        by_cases h1 : jsStrTruthy (activeImageSrc p) = false
        · left; simp [runOp, handleChangeViewpoint, h1]
        · have h1b : jsStrTruthy (activeImageSrc p) = true := by
            revert h1; cases jsStrTruthy (activeImageSrc p) <;> simp
          by_cases h2 : MAX_HISTORY_ITEMS ≤ p.history.length
          · left; simp [runOp, handleChangeViewpoint, h1b, h2]
          · by_cases h3 : p.isChangingViewpoint
            · left; simp [runOp, handleChangeViewpoint, h1b, h2, h3]
            · right
              refine ⟨by simp [runOp, handleChangeViewpoint, h1b, h2, h3], ?_, ?_⟩ <;>
                · cases hg : env.viewpointResult <;>
                    simp [runOp, handleChangeViewpoint, h1b, h2, h3, hg, saveStateForUndo,
                      captureState, classifyFailure_undoStack, classifyFailure_redoStack,
                      handleMediaSuccess_undoStack, handleMediaSuccess_redoStack,
                      createAndStoreHistoryItem_undoStack, createAndStoreHistoryItem_redoStack,
                      updateTokenUsage]
    | inpaint =>
        by_cases h1 : !(jsStrTruthy (activeImageSrc p)) || !env.canvasPresent
            || jsTrim p.inpaintingPrompt = ""
        · left; simp [runOp, handleApplyInpainting, h1]
        · by_cases h2 : MAX_HISTORY_ITEMS ≤ p.history.length
          · left; simp [runOp, handleApplyInpainting, h1, h2]
          · right
            refine ⟨by simp [runOp, handleApplyInpainting, h1, h2], ?_, ?_⟩ <;>
              · cases hg : env.inpaintResult with
                | error msg =>
                    simp [runOp, handleApplyInpainting, h1, h2, hg, saveStateForUndo,
                      captureState, classifyFailure_undoStack, classifyFailure_redoStack]
                | ok l =>
                    cases l <;>
                      simp [runOp, handleApplyInpainting, h1, h2, hg, saveStateForUndo,
                        captureState, classifyFailure_undoStack, classifyFailure_redoStack,
                        handleMediaSuccess_undoStack, handleMediaSuccess_redoStack,
                        createAndStoreHistoryItem_undoStack, createAndStoreHistoryItem_redoStack,
                        updateTokenUsage]
  · intro env p
    refine ⟨rfl, ?_, ?_⟩ <;>
      cases hg : env.surpriseResult <;>
        simp [handleSurpriseMe, hg, classifyFailure_undoStack, classifyFailure_redoStack,
          updateTokenUsage]
  · intro env p
    refine ⟨?_, ?_, ?_, ?_, ?_, ?_⟩
    · by_cases h1 : jsStrTruthy (activeImageSrc p) = false <;>
        simp [handleAnalyzeScene, h1]
    · by_cases h1 : jsStrTruthy (activeImageSrc p) = false
      · simp [handleAnalyzeScene, h1]
      · have h1b : jsStrTruthy (activeImageSrc p) = true := by
          revert h1; cases jsStrTruthy (activeImageSrc p) <;> simp
        cases hg : env.analyzeSceneResult <;>
          simp [handleAnalyzeScene, h1b, hg, classifyFailure_undoStack, updateTokenUsage]
    · by_cases h1 : jsTrim p.prompt = "" <;>
        cases hg : env.suggestNegResult <;>
          simp [handleSuggestNegatives, h1, hg, updateTokenUsage]
    · by_cases h1 : jsTrim p.prompt = "" <;>
        cases hg : env.suggestNegResult <;>
          simp [handleSuggestNegatives, h1, hg, updateTokenUsage]
    · by_cases h1 : p.styleReferenceImage.isNone <;>
        cases hg : env.styleResult <;>
          simp [handleApplyStyle, h1, hg, updateTokenUsage]
    · by_cases h1 : p.styleReferenceImage.isNone <;>
        cases hg : env.styleResult <;>
          simp [handleApplyStyle, h1, hg, updateTokenUsage]

/-- Witness for `checkpoint_protocol_amended` at upscale on a concrete
state. -/
theorem checkpoint_protocol_amended_witness :
    ((runOp GenOp.upscale envOkAll ⟨"2x", "1:1", "up"⟩ fullHistoryPage).snd = []
     ∨ ((runOp GenOp.upscale envOkAll ⟨"2x", "1:1", "up"⟩ fullHistoryPage).snd
          = [Ev.checkpoint, Ev.svcCall]
        ∧ (runOp GenOp.upscale envOkAll ⟨"2x", "1:1", "up"⟩ fullHistoryPage).fst.undoStack
            = takeRight fullHistoryPage.undoStack (MAX_UNDO_STACK_SIZE - 1)
              ++ [captureState fullHistoryPage]
        ∧ (runOp GenOp.upscale envOkAll ⟨"2x", "1:1", "up"⟩ fullHistoryPage).fst.redoStack = []))
    ∧ ((handleSurpriseMe envOkAll initialPage).snd = [Ev.svcCall]
       ∧ (handleSurpriseMe envOkAll initialPage).fst.undoStack = initialPage.undoStack
       ∧ (handleSurpriseMe envOkAll initialPage).fst.redoStack = initialPage.redoStack) :=
  ⟨checkpoint_protocol_amended.1 GenOp.upscale envOkAll ⟨"2x", "1:1", "up"⟩ fullHistoryPage
      (by decide),
   checkpoint_protocol_amended.2.1 envOkAll initialPage⟩

/-! ### C6: banner exclusivity -/

/-- A state showing a refusal banner from an earlier operation. -/
def refusalPage : PageState :=
  { initialPage with
    prompt := "a cat"
    conversationalResponse := some "I cannot generate that image." }

/-- An environment in which the negative-prompt suggestion call fails. -/
def envFailNeg : Env := { envOkAll with suggestNegResult := Except.error "network down" }

/-- C6 counterexample: starting the negative-prompt-suggestion operation
does not clear the refusal banner, and after its failure the error banner
and the refusal banner are both non-null at once. -/
theorem suggestNegatives_keeps_refusal_banner :
    (handleSuggestNegatives envFailNeg refusalPage).fst.error = some "network down"
    ∧ (handleSuggestNegatives envFailNeg refusalPage).fst.conversationalResponse
        = some "I cannot generate that image." :=
  ⟨by decide, by decide⟩

theorem classifyFailure_not_both (m : String) (q : PageState)
    (he : q.error = none) (hc : q.conversationalResponse = none) :
    ¬((classifyFailure m q).error.isSome
       ∧ (classifyFailure m q).conversationalResponse.isSome) := by
  unfold classifyFailure
  split <;> simp [he, hc]

/-- C6 (amended): for the nine generation-style operations and for scene
analysis, any run that reaches its GenerationService call ends with at
most one of the error banner and the refusal banner non-null (both are
cleared at operation start and at most one is set on failure);
negative-prompt suggestion and style analysis, however, clear only the
error banner at start and never touch the refusal banner, so a refusal
banner from an earlier operation survives them (see the counterexample,
where it coexists with a fresh error banner). -/
theorem banner_exclusivity_amended :
    (∀ (op : GenOp) (env : Env) (args : OpArgs) (p : PageState),
       Ev.svcCall ∈ (runOp op env args p).snd →
       ¬((runOp op env args p).fst.error.isSome
          ∧ (runOp op env args p).fst.conversationalResponse.isSome))
    ∧ (∀ (env : Env) (p : PageState),
       Ev.svcCall ∈ (handleAnalyzeScene env p).snd →
       ¬((handleAnalyzeScene env p).fst.error.isSome
          ∧ (handleAnalyzeScene env p).fst.conversationalResponse.isSome))
    ∧ (∀ (env : Env) (p : PageState),
       (handleSuggestNegatives env p).fst.conversationalResponse = p.conversationalResponse)
    ∧ (∀ (env : Env) (p : PageState),
       (handleApplyStyle env p).fst.conversationalResponse = p.conversationalResponse) := by
  refine ⟨?_, ?_, ?_, ?_⟩
  · intro op env args p hcall
    cases op with
    | generateOrEdit =>
        by_cases h1 : jsTrim p.prompt = ""
        · simp [runOp, handleGenerateOrEdit, h1] at hcall
        · by_cases h2 : MAX_HISTORY_ITEMS ≤ p.history.length
          · simp [runOp, handleGenerateOrEdit, h1, h2] at hcall
          · cases hg : env.genResult with
            | error msg =>
                by_cases hs : msg.startsWith refusalPrefix <;>
                  simp [runOp, handleGenerateOrEdit, h1, h2, hg, classifyFailure, hs]
            | ok pr =>
                cases hl : pr.fst with
                | nil =>
                    simp [runOp, handleGenerateOrEdit, h1, h2, hg, hl, classifyFailure,
                      refusalPrefix, apply_ite PageState.error,
                      apply_ite PageState.conversationalResponse]
                | cons a l =>
                    simp [runOp, handleGenerateOrEdit, h1, h2, hg, hl,
                      handleMediaSuccess_conversationalResponse,
                      createAndStoreHistoryItem_conversationalResponse, updateTokenUsage,
                      apply_ite PageState.error, apply_ite PageState.conversationalResponse]
    | generateVideo =>
        by_cases h1 : jsTrim p.prompt = ""
        · simp [runOp, handleGenerateVideo, h1] at hcall
        · by_cases h2 : MAX_HISTORY_ITEMS ≤ p.history.length
          · simp [runOp, handleGenerateVideo, h1, h2] at hcall
          · cases hg : env.videoResult with
            | error msg =>
                by_cases hs : msg.startsWith refusalPrefix <;>
                  simp [runOp, handleGenerateVideo, h1, h2, hg, classifyFailure, hs]
            | ok u =>
                simp [runOp, handleGenerateVideo, h1, h2, hg,
                  handleMediaSuccess_conversationalResponse, updateTokenUsage,
                  apply_ite PageState.error, apply_ite PageState.conversationalResponse]
    | combine =>
        by_cases h1 : p.selectedIndices.length < 2
        · simp [runOp, handleCombineImages, h1] at hcall
        · by_cases h1b : jsTrim p.prompt = ""
          · simp [runOp, handleCombineImages, h1b] at hcall
          · by_cases h2 : MAX_HISTORY_ITEMS ≤ p.history.length
            · simp [runOp, handleCombineImages, h1, h1b, h2] at hcall
            · cases hg : env.combineResult with
              | error msg =>
                  by_cases hs : msg.startsWith refusalPrefix <;>
                    simp [runOp, handleCombineImages, h1, h1b, h2, hg, classifyFailure, hs]
              | ok l =>
                  cases l with
                  | nil =>
                      by_cases hs :
                          ("The model did not combine the images.".startsWith refusalPrefix)
                            = true <;>
                        simp [runOp, handleCombineImages, h1, h1b, h2, hg, classifyFailure, hs]
                  | cons a l =>
                      simp [runOp, handleCombineImages, h1, h1b, h2, hg,
                        handleMediaSuccess_conversationalResponse,
                        createAndStoreHistoryItem_conversationalResponse, updateTokenUsage]
    | upscale =>
        by_cases h1 : !(jsStrTruthy (activeImageSrc { p with isUpscalePanelOpen := false }))
            || ({ p with isUpscalePanelOpen := false } : PageState).activeHistoryItemId.isNone
        · simp [runOp, handleUpscale, h1] at hcall
        · cases hg : env.upscaleResult with
          | error msg =>
              by_cases hs : msg.startsWith refusalPrefix <;>
                simp [runOp, handleUpscale, h1, hg, classifyFailure, hs]
          | ok u =>
              simp [runOp, handleUpscale, h1, hg,
                handleMediaSuccess_conversationalResponse, updateTokenUsage]
    | reframe =>
        by_cases h1 : jsStrTruthy (activeImageSrc { p with isReframePanelOpen := false }) = false
        · simp [runOp, handleReframe, h1] at hcall
        · have h1b : jsStrTruthy (activeImageSrc { p with isReframePanelOpen := false }) = true := by
            revert h1
            cases jsStrTruthy (activeImageSrc { p with isReframePanelOpen := false }) <;> simp
          by_cases h2 : MAX_HISTORY_ITEMS ≤ p.history.length
          · simp [runOp, handleReframe, h1b, h2] at hcall
          · cases hg : env.reframeResult with
            | error msg =>
                by_cases hs : msg.startsWith refusalPrefix <;>
                  simp [runOp, handleReframe, h1b, h2, hg, classifyFailure, hs]
            | ok l =>
                cases l with
                | nil =>
                    by_cases hs :
                        ("The model did not return a reframed image.".startsWith refusalPrefix)
                          = true <;>
                      simp [runOp, handleReframe, h1b, h2, hg, classifyFailure, hs]
                | cons a l =>
                    simp [runOp, handleReframe, h1b, h2, hg,
                      handleMediaSuccess_conversationalResponse,
                      createAndStoreHistoryItem_conversationalResponse, updateTokenUsage]
    | variations =>
        by_cases h1 : jsStrTruthy (activeImageSrc p) = false
        · simp [runOp, handleGenerateVariations, h1] at hcall
        · have h1b : jsStrTruthy (activeImageSrc p) = true := by
            revert h1; cases jsStrTruthy (activeImageSrc p) <;> simp
          by_cases h2 : MAX_HISTORY_ITEMS ≤ p.history.length
          · simp [runOp, handleGenerateVariations, h1b, h2] at hcall
          · cases hg : env.variationsResult with
            | error msg =>
                by_cases hs : msg.startsWith refusalPrefix <;>
                  simp [runOp, handleGenerateVariations, h1b, h2, hg, classifyFailure, hs]
            | ok l =>
                cases l with
                | nil =>
                    by_cases hs :
                        ("The model did not return any variations.".startsWith refusalPrefix)
                          = true <;>
                      simp [runOp, handleGenerateVariations, h1b, h2, hg, classifyFailure, hs]
                | cons a l =>
                    simp [runOp, handleGenerateVariations, h1b, h2, hg,
                      handleMediaSuccess_conversationalResponse,
                      createAndStoreHistoryItem_conversationalResponse, updateTokenUsage]
    | changeViewpoint =>
        by_cases h1 : jsStrTruthy (activeImageSrc p) = false
        · simp [runOp, handleChangeViewpoint, h1] at hcall
        · have h1b : jsStrTruthy (activeImageSrc p) = true := by
            revert h1; cases jsStrTruthy (activeImageSrc p) <;> simp
          by_cases h2 : MAX_HISTORY_ITEMS ≤ p.history.length
          · simp [runOp, handleChangeViewpoint, h1b, h2] at hcall
          · by_cases h3 : p.isChangingViewpoint
            · simp [runOp, handleChangeViewpoint, h1b, h2, h3] at hcall
            · cases hg : env.viewpointResult with
              | error msg =>
                  by_cases hs : msg.startsWith refusalPrefix <;>
                    simp [runOp, handleChangeViewpoint, h1b, h2, h3, hg, classifyFailure, hs]
              | ok u =>
                  simp [runOp, handleChangeViewpoint, h1b, h2, h3, hg,
                    handleMediaSuccess_conversationalResponse,
                    createAndStoreHistoryItem_conversationalResponse, updateTokenUsage]
    | inpaint =>
        by_cases h1 : !(jsStrTruthy (activeImageSrc p)) || !env.canvasPresent
            || jsTrim p.inpaintingPrompt = ""
        · simp [runOp, handleApplyInpainting, h1] at hcall
        · by_cases h2 : MAX_HISTORY_ITEMS ≤ p.history.length
          · simp [runOp, handleApplyInpainting, h1, h2] at hcall
          · cases hg : env.inpaintResult with
            | error msg =>
                by_cases hs : msg.startsWith refusalPrefix <;>
                  simp [runOp, handleApplyInpainting, h1, h2, hg, classifyFailure, hs]
            | ok l =>
                cases l with
                | nil =>
                    by_cases hs :
                        ("Inpainting failed to return an image.".startsWith refusalPrefix)
                          = true <;>
                      simp [runOp, handleApplyInpainting, h1, h2, hg, classifyFailure, hs]
                | cons a l =>
                    simp [runOp, handleApplyInpainting, h1, h2, hg,
                      handleMediaSuccess_conversationalResponse,
                      createAndStoreHistoryItem_conversationalResponse, updateTokenUsage]
    | surpriseMe =>
        cases hg : env.surpriseResult with
        | error msg =>
            by_cases hs : msg.startsWith refusalPrefix <;>
              simp [runOp, handleSurpriseMe, hg, classifyFailure, hs]
        | ok u => simp [runOp, handleSurpriseMe, hg, updateTokenUsage]
  · intro env p hcall
    by_cases h1 : jsStrTruthy (activeImageSrc p) = false
    · simp [handleAnalyzeScene, h1] at hcall
    · have h1b : jsStrTruthy (activeImageSrc p) = true := by
        revert h1; cases jsStrTruthy (activeImageSrc p) <;> simp
      cases hg : env.analyzeSceneResult with
      | error msg =>
          by_cases hs : msg.startsWith refusalPrefix <;>
            simp [handleAnalyzeScene, h1b, hg, classifyFailure, hs]
      | ok u => simp [handleAnalyzeScene, h1b, hg, updateTokenUsage]
  · intro env p
    by_cases h1 : jsTrim p.prompt = "" <;>
      cases hg : env.suggestNegResult <;>
        simp [handleSuggestNegatives, h1, hg, updateTokenUsage]
  · intro env p
    by_cases h1 : p.styleReferenceImage.isNone <;>
      cases hg : env.styleResult <;>
        simp [handleApplyStyle, h1, hg, updateTokenUsage]

/-- Witness for `banner_exclusivity_amended` at surprise-me on the initial
state. -/
theorem banner_exclusivity_amended_witness :
    (¬((runOp GenOp.surpriseMe envOkAll ⟨"2x", "1:1", "up"⟩ initialPage).fst.error.isSome
        ∧ (runOp GenOp.surpriseMe envOkAll ⟨"2x", "1:1", "up"⟩
            initialPage).fst.conversationalResponse.isSome))
    ∧ (handleSuggestNegatives envOkAll refusalPage).fst.conversationalResponse
        = refusalPage.conversationalResponse :=
  ⟨banner_exclusivity_amended.1 GenOp.surpriseMe envOkAll ⟨"2x", "1:1", "up"⟩ initialPage
      (by decide),
   banner_exclusivity_amended.2.2.1 envOkAll refusalPage⟩

/-! ### C7: the busy-flag gate -/

/-- A state in which a generation is in flight and the 360 view with its
viewpoint arrows is shown. -/
def busy360Page : PageState :=
  { initialPage with
    isLoading := true
    is360View := true
    bgUrl1 := some "data:image/png;base64,AAA" }

/-- A state in which a generation is in flight and the upscale panel is
open over an active image. -/
def busyUpscalePage : PageState :=
  { initialPage with
    isLoading := true
    isUpscalePanelOpen := true
    bgUrl1 := some "data:image/png;base64,AAA"
    activeHistoryItemId := some "h1" }

/-- A state in which a generation is in flight and the reframe panel is
open over an active image. -/
def busyReframePage : PageState :=
  { initialPage with
    isLoading := true
    isReframePanelOpen := true
    bgUrl1 := some "data:image/png;base64,AAA" }

/-- A state in which a generation is in flight while inpainting mode is
open with a mask prompt typed in. -/
def busyInpaintPage : PageState :=
  { initialPage with
    isLoading := true
    isInpaintingMode := true
    inpaintingPrompt := "fix the sky"
    bgUrl1 := some "data:image/png;base64,AAA" }

/-- C7 counterexample: while another operation's busy flag is set
(`isBusy` true), pressing a change-viewpoint arrow, an upscale resolution
button, a reframe ratio button, or the inpaint-apply button still fires
the corresponding handler and issues a GenerationService call — the
arrows are disabled only by `isChangingViewpoint`, the resolution and
ratio buttons have no `disabled` attribute, the inpaint-apply button is
disabled only by `isInpaintingLoading`, and none of the four handlers
checks `isBusy`. -/
theorem viewpoint_trigger_ignores_busy :
    (isBusy busy360Page = true
      ∧ (fireTrigger Trigger.viewpointArrow envOkAll ⟨"2x", "1:1", "up"⟩ busy360Page).snd
          = [Ev.checkpoint, Ev.svcCall])
    ∧ (isBusy busyUpscalePage = true
      ∧ (fireTrigger Trigger.upscaleResolutionButton envOkAll ⟨"4x", "1:1", "up"⟩
            busyUpscalePage).snd
          = [Ev.checkpoint, Ev.svcCall])
    ∧ (isBusy busyReframePage = true
      ∧ (fireTrigger Trigger.reframeRatioButton envOkAll ⟨"2x", "16:9", "up"⟩
            busyReframePage).snd
          = [Ev.checkpoint, Ev.svcCall])
    ∧ (isBusy busyInpaintPage = true
      ∧ (fireTrigger Trigger.inpaintApplyButton envOkAll ⟨"2x", "16:9", "up"⟩
            busyInpaintPage).snd
          = [Ev.checkpoint, Ev.svcCall]) :=
  ⟨⟨by decide, by decide⟩, ⟨by decide, by decide⟩, ⟨by decide, by decide⟩,
   ⟨by decide, by decide⟩⟩

/-- The triggers whose `disabled` predicate includes `isBusy`. -/
def busyGatedTriggers : List Trigger :=
  [Trigger.primaryButton, Trigger.generateVideoButton, Trigger.surpriseMeButton,
   Trigger.variationsButton, Trigger.inpaintEntryButton, Trigger.upscalePanelToggle,
   Trigger.reframePanelToggle]

/-- C7 (amended): the primary generate/edit/combine button, the
generate-video, surprise-me and variations buttons, and the
inpainting-entry and upscale/reframe panel toggles are disabled whenever
`isBusy` holds, so firing them while busy performs no GenerationService
call and no state change; the change-viewpoint arrows (disabled only by
`isChangingViewpoint`), the upscale resolution and reframe ratio buttons
inside an already-open panel (no `disabled` attribute), and the
inpaint-apply button (disabled only by `isInpaintingLoading`) are not
gated on `isBusy`, and their handlers check no busy flag either, so each
of them can issue a GenerationService call while another operation is in
flight (see the counterexample). -/
theorem busy_gate_amended (t : Trigger) (env : Env) (args : OpArgs) (p : PageState)
    (hmem : t ∈ busyGatedTriggers) (hbusy : isBusy p = true) :
    fireTrigger t env args p = (p, []) := by
  cases t with
  | viewpointArrow => simp [busyGatedTriggers] at hmem
  | upscaleResolutionButton => simp [busyGatedTriggers] at hmem
  | reframeRatioButton => simp [busyGatedTriggers] at hmem
  | inpaintApplyButton => simp [busyGatedTriggers] at hmem
  | primaryButton => simp [fireTrigger, hbusy]
  | generateVideoButton => simp [fireTrigger, hbusy]
  | surpriseMeButton => simp [fireTrigger, hbusy]
  | variationsButton => simp [fireTrigger, hbusy]
  | inpaintEntryButton => simp [fireTrigger, hbusy]
  | upscalePanelToggle => simp [fireTrigger, hbusy]
  | reframePanelToggle => simp [fireTrigger, hbusy]

/-- Witness for `busy_gate_amended` at the primary button on a busy
state. -/
theorem busy_gate_amended_witness :
    fireTrigger Trigger.primaryButton envOkAll ⟨"2x", "1:1", "up"⟩
      { initialPage with isLoading := true }
      = ({ initialPage with isLoading := true }, []) :=
  busy_gate_amended Trigger.primaryButton envOkAll ⟨"2x", "1:1", "up"⟩
    { initialPage with isLoading := true } (by decide) rfl

/-! ### C8: cancellation of the COS batch run -/

/-- A COSPage state ready to generate: an input image and a preset style
selected. -/
def cosReadyState : CosState where
  inputImage := some { base64 := "data:image/png;base64,IN", mimeType := "image/png" }
  styleSelected := true
  styleIsCustom := false
  manualPrompt := ""
  isGenerating := false
  generatedImages := []
  progressCurrent := 0
  progressTotal := 20
  error := none
  tokenUsage := 0

/-- A result table where call 1 returns imgA and later calls imgB. -/
def cosResultsAB : Nat → Except String (List String) :=
  fun i => if i = 1 then Except.ok ["imgA"] else Except.ok ["imgB"]

/-- C8 counterexample: cancelling while call 1 is in flight does not
discard that call's result — it is appended to the shown results when the
call resolves (the cancellation flag is only checked before the next
iteration). -/
theorem cos_inflight_result_kept :
    (cosHandleGenerate cosResultsAB (some 1) cosReadyState).generatedImages = ["imgA"]
    ∧ (cosHandleGenerate cosResultsAB (some 1) cosReadyState).isGenerating = false :=
  ⟨by decide, by decide⟩

theorem cosLoop_ok_spec (results : Nat → Except String (List String)) (c : Nat) :
    ∀ (fuel i : Nat) (st : CosState),
      (∀ j, i ≤ j → j ≤ c → (results j).toOption.isSome = true) →
      (cosLoop results (some c) i fuel st).generatedImages
          = st.generatedImages ++ cosFirstsFrom results c i fuel
      ∧ (cosLoop results (some c) i fuel st).error = st.error
      ∧ (cosLoop results (some c) i fuel st).isGenerating = st.isGenerating := by
  intro fuel
  induction fuel with
  | zero => intro i st _; simp [cosLoop, cosFirstsFrom]
  | succ fuel ih =>
      intro i st hok
      by_cases hci : c < i
      · simp [cosLoop, cosFirstsFrom, cosCancelledBeforeCheck, hci]
      · have hile : i ≤ c := by omega
        have hsome := hok i (le_refl i) hile
        obtain ⟨r, hr⟩ : ∃ r, results i = Except.ok r := by
          cases hresult : results i with
          | error e => rw [hresult] at hsome; simp [Except.toOption] at hsome
          | ok r => exact ⟨r, rfl⟩
        have hok2 : ∀ j, i + 1 ≤ j → j ≤ c → (results j).toOption.isSome = true :=
          fun j hj1 hj2 => hok j (by omega) hj2
        cases r with
        | nil =>
            have hrec := ih (i + 1) { st with progressCurrent := i } hok2
            simp only [cosLoop, cosCancelledBeforeCheck, hci, if_neg, hr, cosFirstsFrom]
            simpa [cosCancelledBeforeCheck, hci, hr, cosFirstsFrom] using hrec
        | cons x xs =>
            have hrec := ih (i + 1)
              { st with progressCurrent := i,
                        generatedImages := st.generatedImages ++ [x],
                        tokenUsage := st.tokenUsage + 300 } hok2
            simpa [cosCancelledBeforeCheck, hci, hr, cosLoop, cosFirstsFrom] using hrec

theorem cosLoop_congr (results results2 : Nat → Except String (List String)) (c : Nat) :
    ∀ (fuel i : Nat) (st : CosState),
      (∀ j, i ≤ j → j ≤ c → results2 j = results j) →
      cosLoop results2 (some c) i fuel st = cosLoop results (some c) i fuel st := by
  intro fuel
  induction fuel with
  | zero => intro i st _; rfl
  | succ fuel ih =>
      intro i st hagree
      by_cases hci : c < i
      · simp [cosLoop, cosCancelledBeforeCheck, hci]
      · have hile : i ≤ c := by omega
        have hagree2 : ∀ j, i + 1 ≤ j → j ≤ c → results2 j = results j :=
          fun j hj1 hj2 => hagree j (by omega) hj2
        have hi := hagree i (le_refl i) hile
        cases hr : results i with
        | error e =>
            simp [cosLoop, cosCancelledBeforeCheck, hci, hi, hr]
        | ok r =>
            cases r <;>
              simp [cosLoop, cosCancelledBeforeCheck, hci, hi, hr, ih _ _ hagree2]

/-- C8 (amended): when the batch variations run is cancelled while call
`c` is in flight, the cooperative flag stops the loop before its next
iteration (the run's outcome depends only on the results of calls up to
`c`), every result completed before the cancellation is preserved and
shown, and the in-flight call's result is NOT discarded: the shown results
are exactly the successful first images of calls 1 through `c` (provided
those calls return rather than throw); no error banner is shown and the
busy flag ends false. -/
theorem cos_cancellation_amended (results : Nat → Except String (List String)) (c : Nat)
    (st : CosState)
    (hguard1 : st.inputImage.isSome = true)
    (hguard2 : st.styleSelected = true)
    (hguard3 : st.styleIsCustom = true → ¬(jsTrim st.manualPrompt = ""))
    (hok : ∀ j, 1 ≤ j → j ≤ c → (results j).toOption.isSome = true) :
    (cosHandleGenerate results (some c) st).generatedImages = cosFirstsFrom results c 1 20
    ∧ (cosHandleGenerate results (some c) st).error = none
    ∧ (cosHandleGenerate results (some c) st).isGenerating = false
    ∧ (∀ results2 : Nat → Except String (List String),
        (∀ j, 1 ≤ j → j ≤ c → results2 j = results j) →
        cosHandleGenerate results2 (some c) st = cosHandleGenerate results (some c) st) := by
  have hnone : st.inputImage.isNone = false := by
    cases hin : st.inputImage with
    | none => rw [hin] at hguard1; simp at hguard1
    | some v => rfl
  have hcustom : (st.styleIsCustom && decide (jsTrim st.manualPrompt = "")) = false := by
    cases hcu : st.styleIsCustom with
    | false => rfl
    | true =>
        have := hguard3 hcu
        simp [this]
  have hcond1 : (st.inputImage.isNone || !st.styleSelected) = false := by
    rw [hnone, hguard2]
    rfl
  set st1 : CosState :=
    { st with isGenerating := true, generatedImages := [], error := none,
              progressCurrent := 0, progressTotal := 20, tokenUsage := 0 } with hst1
  have hkey : cosHandleGenerate results (some c) st
      = { cosLoop results (some c) 1 20 st1 with isGenerating := false } := by
    simp [cosHandleGenerate, hcond1, hcustom, hst1]
  have hkey2 : ∀ results2 : Nat → Except String (List String),
      cosHandleGenerate results2 (some c) st
        = { cosLoop results2 (some c) 1 20 st1 with isGenerating := false } := by
    intro results2
    simp [cosHandleGenerate, hcond1, hcustom, hst1]
  have hspec := cosLoop_ok_spec results c 20 1 st1 (fun j hj1 hj2 => hok j hj1 hj2)
  refine ⟨?_, ?_, ?_, ?_⟩
  · rw [hkey]
    simpa [hst1] using hspec.1
  · rw [hkey]
    simpa [hst1] using hspec.2.1
  · rw [hkey]
  · intro results2 hagree
    rw [hkey, hkey2 results2,
      cosLoop_congr results results2 c 20 1 st1 (fun j hj1 hj2 => hagree j hj1 hj2)]

/-- Witness for `cos_cancellation_amended` with cancellation during call
3. -/
theorem cos_cancellation_amended_witness :
    (cosHandleGenerate cosResultsAB (some 3) cosReadyState).generatedImages
        = cosFirstsFrom cosResultsAB 3 1 20
    ∧ (cosHandleGenerate cosResultsAB (some 3) cosReadyState).error = none
    ∧ (cosHandleGenerate cosResultsAB (some 3) cosReadyState).isGenerating = false
    ∧ (∀ results2 : Nat → Except String (List String),
        (∀ j, 1 ≤ j → j ≤ 3 → results2 j = cosResultsAB j) →
        cosHandleGenerate results2 (some 3) cosReadyState
          = cosHandleGenerate cosResultsAB (some 3) cosReadyState) :=
  cos_cancellation_amended cosResultsAB 3 cosReadyState (by decide) (by decide)
    (by decide) (fun j _ hj2 => by
      interval_cases j <;> decide)

/-! ### C10: the upload handler -/

theorem handleMediaSuccess_currentImage_false (load : Option (Nat × Nat)) (src : String)
    (p : PageState) :
    (handleMediaSuccess load src false p).currentImage = p.currentImage := by
  unfold handleMediaSuccess resetTransform
  cases load <;> simp [apply_ite PageState.currentImage]

theorem handleMediaSuccess_false_videoUrl (load : Option (Nat × Nat)) (src : String)
    (p : PageState) :
    (handleMediaSuccess load src false p).currentVideoUrl = none := by
  unfold handleMediaSuccess resetTransform
  cases load <;> simp [apply_ite PageState.currentVideoUrl]

theorem handleMediaSuccess_slot (wh : Nat × Nat) (src : String) (p : PageState) :
    (handleMediaSuccess (some wh) src false p).bgUrl1 = some src
    ∨ (handleMediaSuccess (some wh) src false p).bgUrl2 = some src := by
  unfold handleMediaSuccess resetTransform
  by_cases h1 : !(jsStrTruthy p.bgUrl1) && !(jsStrTruthy p.bgUrl2)
  · left; simp [h1]
  · by_cases h2 : p.isBg1Active
    · right; simp [h1, h2]
    · left; simp [h1, h2]

theorem selectedNewImages_length_le (fs : List JsFile) (p : PageState)
    (h6 : p.uploadedImages.length ≤ 6) :
    p.uploadedImages.length + (selectedNewImages (some fs) p).length ≤ 6 := by
  unfold selectedNewImages jsSliceTo
  have hstop : ¬((6 : Int) - (p.uploadedImages.length : Int) < 0) := by omega
  simp only [hstop, if_false, List.length_map, List.length_take]
  omega

/-- C10: the upload handler caps incoming files so that the staging area
never exceeds 6 images; when exactly one image results from the capped
selection it is not staged but becomes the edit-source image and (when it
decodes) the displayed media, with the staging list and selection cleared
and the prompt reset to empty after an undo checkpoint of the
pre-selection state; only selections yielding two or more images are
appended to the staging area, and an empty capped selection changes
nothing. -/
theorem files_selected_staging (files : Option (List JsFile)) (load : Option (Nat × Nat))
    (p : PageState) (h6 : p.uploadedImages.length ≤ 6) :
    (handleFilesSelected files load p).uploadedImages.length ≤ 6
    ∧ ((selectedNewImages files p).length = 1 →
        (handleFilesSelected files load p).currentImage = (selectedNewImages files p).head?
        ∧ (handleFilesSelected files load p).uploadedImages = []
        ∧ (handleFilesSelected files load p).selectedIndices = []
        ∧ (handleFilesSelected files load p).prompt = ""
        ∧ (handleFilesSelected files load p).undoStack
            = takeRight p.undoStack (MAX_UNDO_STACK_SIZE - 1) ++ [captureState p]
        ∧ (handleFilesSelected files load p).currentVideoUrl = none
        ∧ (∀ wh, load = some wh →
            (handleFilesSelected files load p).bgUrl1
                = ((selectedNewImages files p).head?).map ImageData.base64
            ∨ (handleFilesSelected files load p).bgUrl2
                = ((selectedNewImages files p).head?).map ImageData.base64))
    ∧ (2 ≤ (selectedNewImages files p).length →
        (handleFilesSelected files load p).uploadedImages
            = p.uploadedImages ++ selectedNewImages files p
        ∧ (handleFilesSelected files load p).currentImage = p.currentImage
        ∧ (handleFilesSelected files load p).undoStack = p.undoStack
        ∧ (handleFilesSelected files load p).prompt = p.prompt)
    ∧ ((selectedNewImages files p).length = 0 → handleFilesSelected files load p = p) := by
  cases files with
  | none => simp [handleFilesSelected, selectedNewImages, h6]
  | some fs =>
      cases hsel : selectedNewImages (some fs) p with
      | nil => simp [handleFilesSelected, hsel, h6]
      | cons x xs =>
          cases xs with
          | nil =>
              refine ⟨?_, ?_, ?_, ?_⟩
              · simp [handleFilesSelected, hsel]
              · intro _
                refine ⟨?_, ?_, ?_, ?_, ?_, ?_, ?_⟩
                · simp [handleFilesSelected, hsel, handleMediaSuccess_currentImage_false]
                · simp [handleFilesSelected, hsel]
                · simp [handleFilesSelected, hsel]
                · simp [handleFilesSelected, hsel]
                · simp [handleFilesSelected, hsel, handleMediaSuccess_undoStack,
                    saveStateForUndo, captureState]
                · simp [handleFilesSelected, hsel, handleMediaSuccess_false_videoUrl]
                · intro wh hwh
                  subst hwh
                  have hslot := handleMediaSuccess_slot wh x.base64
                    { (saveStateForUndo p) with currentImage := some x }
                  rcases hslot with hslot | hslot
                  · left; simp [handleFilesSelected, hsel, hslot]
                  · right; simp [handleFilesSelected, hsel, hslot]
              · intro h2
                simp at h2
              · intro h0
                simp at h0
          | cons y ys =>
              refine ⟨?_, ?_, ?_, ?_⟩
              · have hle := selectedNewImages_length_le fs p h6
                rw [hsel] at hle
                simp at hle
                simp [handleFilesSelected, hsel]
                omega
              · intro h1
                simp at h1
              · intro _
                refine ⟨?_, ?_, ?_, ?_⟩ <;> simp [handleFilesSelected, hsel]
              · intro h0
                simp at h0

/-- Witness for `files_selected_staging` with two selected files on the
initial state. -/
theorem files_selected_staging_witness :
    (handleFilesSelected
        (some [{ dataUrl := "data:image/png;base64,F1", mimeType := "image/png" },
               { dataUrl := "data:image/jpeg;base64,F2", mimeType := "image/jpeg" }])
        (some (4, 3)) initialPage).uploadedImages.length ≤ 6 :=
  (files_selected_staging
      (some [{ dataUrl := "data:image/png;base64,F1", mimeType := "image/png" },
             { dataUrl := "data:image/jpeg;base64,F2", mimeType := "image/jpeg" }])
      (some (4, 3)) initialPage (by decide)).1

end VXDL


